import Mathlib

/-!
# Batik Nusantara storefront script (`src/js/script.js`)

A shallow embedding of the behaviour layer of the page: the scroll handlers
(navbar chrome, back-to-top visibility, reveal animations, active navigation
link), the rate-limiting utilities `throttle` and `debounce`, and the form
validator with its e-mail pattern.

Conventions of the embedding.

* JavaScript numbers are exact rationals (`ℚ`); rounding of IEEE doubles is
  not modelled.
* The document is the list of its elements in document order; an element
  reference is its position in that list.  The handlers only ever change class
  lists, so positions are stable.
* `forEach` over a `NodeList` is a left fold over the list of references.
* Layout numbers (`offsetTop`, `offsetHeight`, bounding rectangles) and the
  window (`scrollY`, `innerHeight`) are read afresh by every handler; they are
  collected in a `View` that is an input of each pass.
-/

namespace BatikStore

/-- How a call of a JavaScript function ends: it returns, or it throws; either
way it may have changed the state `σ` it works on. -/
inductive Outcome (σ : Type) where
  | returned (world : σ)
  | threw (world : σ)
  deriving DecidableEq, Repr

/-- The state a call leaves behind, however it ended. -/
def Outcome.world {σ : Type} : Outcome σ → σ
  | .returned w => w
  | .threw w => w

/-! ## 1. DOM elements and variables -/

/-- One element of the document: the markup the script looks at and the
element's class list (`classList`, a `DOMTokenList`). -/
structure Element where
  /-- Local name of the element, in lower case (`section`, `a`, `nav`, ...). -/
  tagName : String
  /-- The `id` attribute, if present. -/
  id : Option String := none
  /-- The `href` attribute, if present. -/
  href : Option String := none
  /-- The `data-aos` attribute, if present. -/
  dataAos : Option String := none
  /-- The tokens of the class attribute, in order. -/
  classList : List String := []
  deriving DecidableEq, Repr

/-- The document: its elements in document order. -/
abbrev Document := List Element

/-- Result of `getBoundingClientRect()`. -/
structure DOMRect where
  top : ℚ
  bottom : ℚ
  left : ℚ := 0
  right : ℚ := 0
  deriving DecidableEq

/-- What a handler reads from the window and from the layout engine during one
pass; element-indexed fields are indexed by document position. -/
structure View where
  /-- Value of `window.scrollY`. -/
  scrollY : ℚ
  /-- Value of `window.innerHeight`. -/
  innerHeight : ℚ
  /-- Value of `document.documentElement.clientHeight`. -/
  clientHeight : ℚ
  /-- Value of `element.offsetTop`. -/
  offsetTop : Nat → ℚ
  /-- Value of `element.offsetHeight`. -/
  offsetHeight : Nat → ℚ
  /-- Value of `element.getBoundingClientRect()`. -/
  boundingRect : Nat → DOMRect

/-- The property `window.pageYOffset`, an alias of `window.scrollY`. -/
def View.pageYOffset (v : View) : ℚ := v.scrollY

/-- JavaScript `a || b` on numbers: `a` unless it is falsy (zero). -/
def orElse (a b : ℚ) : ℚ := if a = 0 then b else a

/-- Method `DOMTokenList.contains`. -/
def tokenContains (l : List String) (token : String) : Bool := l.contains token

/-- Method `DOMTokenList.add`: append the token unless it is already present. -/
def tokenAdd (token : String) (l : List String) : List String :=
  if l.contains token then l else l ++ [token]

/-- Method `DOMTokenList.remove`: drop the token. -/
def tokenRemove (token : String) (l : List String) : List String :=
  l.filter (fun t => t != token)

/-- Replace the class list of an element. -/
def Element.mapClassList (f : List String → List String) (e : Element) : Element :=
  { e with classList := f e.classList }

/-- The call `el.classList.add(token)` on the element at position `el`. -/
def classListAdd (doc : Document) (el : Nat) (token : String) : Document :=
  List.modify (Element.mapClassList (tokenAdd token)) el doc

/-- The call `el.classList.remove(token)` on the element at position `el`. -/
def classListRemove (doc : Document) (el : Nat) (token : String) : Document :=
  List.modify (Element.mapClassList (tokenRemove token)) el doc

/-- The call `el.classList.contains(token)`; `false` when there is no such element. -/
def hasClass (doc : Document) (el : Nat) (token : String) : Bool :=
  match doc[el]? with
  | some e => tokenContains e.classList token
  | none => false

/-- The call `document.querySelectorAll(sel)`: the positions of the matching elements in
document order; a selector is the predicate it denotes on one element. -/
def querySelectorAll (sel : Element → Bool) (doc : Document) : List Nat :=
  (List.range doc.length).filter (fun i =>
    match doc[i]? with
    | some e => sel e
    | none => false)

/-- The call `document.querySelector(sel)`: the first matching element, if any. -/
def querySelector (sel : Element → Bool) (doc : Document) : Option Nat :=
  (querySelectorAll sel doc).head?

/-- The call `document.getElementById(id)`: the first element with that `id`. -/
def getElementById (id : String) (doc : Document) : Option Nat :=
  querySelector (fun e => e.id == some id) doc

/-- Selector `.nav-link`. -/
def selNavLink (e : Element) : Bool := tokenContains e.classList "nav-link"

/-- Selector `[data-aos]`. -/
def selDataAos (e : Element) : Bool := e.dataAos.isSome

/-- Selector `section[id]`. -/
def selSectionWithId (e : Element) : Bool := e.tagName == "section" && e.id.isSome

/-- Selector `.nav-link[href="..."]` whose quoted string has the value `value`:
the element has class `nav-link` and its `href` attribute equals `value`. -/
def selNavLinkHref (value : String) (e : Element) : Bool :=
  selNavLink e && e.href == some value

/-- The element references of the constant `DOM`. -/
structure DOMRefs where
  navbar : Option Nat
  navLinks : List Nat
  backToTop : Option Nat
  contactForm : Option Nat
  animatedElements : List Nat
  sections : List Nat
  deriving DecidableEq, Repr

/-- The constant `DOM`: the lookups done once when the script is loaded. -/
def DOM (doc : Document) : DOMRefs where
  navbar := getElementById "mainNavbar" doc
  navLinks := querySelectorAll selNavLink doc
  backToTop := getElementById "backToTop" doc
  contactForm := getElementById "contactForm" doc
  animatedElements := querySelectorAll selDataAos doc
  sections := querySelectorAll selSectionWithId doc

/-! ### Numbers

The numbers of the script are IEEE-754 doubles.  A finite double is stood for
by the rational number that is its value, and an operation of the script whose
exact result need not be a double is followed by `toDouble`, the rounding to the
nearest double with ties going to the even significand.  Sums and differences
of whole numbers such as `offsetTop`, `offsetHeight` and the delays of timers
are exact in doubles and are not rounded.  Results beyond the largest finite
double are not modelled; no operation on a window height yields one.
-/

/-- Rounding of a rational to the nearest whole number, a tie going to the even
one. -/
def roundHalfEven (y : ℚ) : Int :=
  let whole : Int := ⌊y⌋
  let rest : ℚ := y - whole
  if rest < 1 / 2 then whole
  else if 1 / 2 < rest then whole + 1
  else if whole % 2 = 0 then whole else whole + 1

/-- The exponent of the spacing of the doubles around `x`: 52 below the binary
exponent of `x`, and not below that of the subnormal doubles. -/
def ulpExponent (x : ℚ) : Int := max (Int.log 2 |x| - 52) (-1074)

/-- The double nearest to the rational `x`: the nearest multiple of the spacing,
a tie going to the even multiple. -/
def toDouble (x : ℚ) : ℚ :=
  if x = 0 then 0 else (roundHalfEven (x / 2 ^ ulpExponent x) : ℚ) * 2 ^ ulpExponent x

/-- The constant `CONFIG`. -/
structure Config where
  navbarScrollThreshold : ℚ
  backToTopThreshold : ℚ
  animationOffset : ℚ
  debounceDelay : ℚ

/-- The values of `CONFIG`; `animationOffset` is the literal `0.15`, that is the
double nearest to `15 / 100`. -/
def CONFIG : Config where
  navbarScrollThreshold := 50
  backToTopThreshold := 300
  animationOffset := toDouble (15 / 100)
  debounceDelay := 10

/-- The expression `window.scrollY || window.pageYOffset`. -/
def scrollPosition (v : View) : ℚ := orElse v.scrollY v.pageYOffset

/-! ## 2. Navbar -/

/-- The function `handleNavbarScroll`. -/
def handleNavbarScroll (dom : DOMRefs) (v : View) (doc : Document) : Document :=
  match dom.navbar with
  | none => doc
  | some navbar =>
    if scrollPosition v > CONFIG.navbarScrollThreshold then
      classListAdd doc navbar "scrolled"
    else
      classListRemove doc navbar "scrolled"

/-! ## 4. Scroll animations -/

/-- The local `windowHeight` of `isInViewport`:
`window.innerHeight || document.documentElement.clientHeight`. -/
def windowHeight (v : View) : ℚ := orElse v.innerHeight v.clientHeight

/-- The function `isInViewport(element)`; the product and the difference are
rounded to doubles. -/
def isInViewport (v : View) (element : Nat) : Bool :=
  let rect := v.boundingRect element
  let windowHeight := windowHeight v
  let offset := toDouble (windowHeight * CONFIG.animationOffset)
  decide (rect.top ≤ toDouble (windowHeight - offset)) && decide (rect.bottom ≥ 0)

/-- The function `handleScrollAnimations`. -/
def handleScrollAnimations (dom : DOMRefs) (v : View) (doc : Document) : Document :=
  dom.animatedElements.foldl
    (fun doc element =>
      if isInViewport v element then classListAdd doc element "aos-animate" else doc)
    doc

/-! ## 5. Back to top button -/

/-- The function `handleBackToTop`. -/
def handleBackToTop (dom : DOMRefs) (v : View) (doc : Document) : Document :=
  match dom.backToTop with
  | none => doc
  | some backToTop =>
    if scrollPosition v > CONFIG.backToTopThreshold then
      classListAdd doc backToTop "visible"
    else
      classListRemove doc backToTop "visible"

/-! ## 6. Active navigation link -/

/-- The value of `section.getAttribute('id')` as it is pasted into the template literal (a
missing attribute would be rendered as `null`). -/
def getAttributeId (doc : Document) (el : Nat) : String :=
  match doc[el]? with
  | some e => e.id.getD "null"
  | none => "null"

/-- The local `navbarHeight`: `DOM.navbar ? DOM.navbar.offsetHeight : 0`. -/
def navbarHeight (dom : DOMRefs) (v : View) : ℚ :=
  match dom.navbar with
  | some navbar => v.offsetHeight navbar
  | none => 0

/-- The local `sectionTop`. -/
def sectionTop (dom : DOMRefs) (v : View) (el : Nat) : ℚ :=
  v.offsetTop el - navbarHeight dom v - 100

/-- The local `sectionBottom`. -/
def sectionBottom (dom : DOMRefs) (v : View) (el : Nat) : ℚ :=
  sectionTop dom v el + v.offsetHeight el

/-- The test `scrollPosition >= sectionTop && scrollPosition < sectionBottom`. -/
def inActiveRange (dom : DOMRefs) (v : View) (el : Nat) : Bool :=
  decide (scrollPosition v ≥ sectionTop dom v el) &&
    decide (scrollPosition v < sectionBottom dom v el)

/-- The inner loop: remove `active` from every link of `DOM.navLinks`. -/
def clearActive (dom : DOMRefs) (doc : Document) : Document :=
  dom.navLinks.foldl (fun doc link => classListRemove doc link "active") doc

/-! ### The selector text

The script pastes the section id, unescaped, between the quotation marks of
`.nav-link[href="#..."]` and hands the text to `document.querySelector`, which
reads it as a style-sheet tokenizer does.  An id without quotation mark,
backslash, line break or NUL gives the selector the template intends.  A
backslash starts an escape, a line break inside the string makes the text
invalid, and a quotation mark ends the string early.
-/

/-- The replacement character `U+FFFD`. -/
def replacementChar : Char := Char.ofNat 0xFFFD

/-- The line feed. -/
def lineFeed : Char := Char.ofNat 0x0A

/-- One code point after the preprocessing of the tokenizer's input: carriage
return and form feed become a line feed, NUL becomes `U+FFFD`. -/
def cssPreprocessChar (c : Char) : Char :=
  if c.val == 0x0D || c.val == 0x0C then lineFeed
  else if c.val == 0 then replacementChar
  else c

/-- Preprocessing of the tokenizer's input; a carriage return followed by a
line feed becomes a single line feed. -/
def cssPreprocess : List Char → List Char
  | [] => []
  | [c] => [cssPreprocessChar c]
  | c :: d :: ds =>
    if c.val == 0x0D && d.val == 0x0A then lineFeed :: cssPreprocess ds
    else cssPreprocessChar c :: cssPreprocess (d :: ds)

/-- The value of a hexadecimal digit. -/
def hexDigit (c : Char) : Option Nat :=
  if 0x30 ≤ c.val && c.val ≤ 0x39 then some (c.toNat - 0x30)
  else if 0x61 ≤ c.val && c.val ≤ 0x66 then some (c.toNat - 0x61 + 10)
  else if 0x41 ≤ c.val && c.val ≤ 0x46 then some (c.toNat - 0x41 + 10)
  else none

/-- Read at most `n` hexadecimal digits: their value and the remaining text. -/
def readHex : Nat → Nat → List Char → Nat × List Char
  | 0, value, cs => (value, cs)
  | _ + 1, value, [] => (value, [])
  | n + 1, value, c :: cs =>
    match hexDigit c with
    | some d => readHex n (16 * value + d) cs
    | none => (value, c :: cs)

/-- White space of the tokenizer after preprocessing: line feed, tab, space. -/
def isCssWhitespace (c : Char) : Bool := c.val == 0x0A || c.val == 0x09 || c.val == 0x20

/-- The code point that a hexadecimal escape stands for: zero, a surrogate and
a number above `U+10FFFF` give `U+FFFD`. -/
def escapedChar (n : Nat) : Char :=
  if n = 0 ∨ (0xD800 ≤ n ∧ n ≤ 0xDFFF) ∨ 0x10FFFF < n then replacementChar else Char.ofNat n

/-- Read a string token after its opening quotation mark: `none` when a line
feed makes it a bad string, otherwise the value of the string and the text
after the closing quotation mark (no text when the input ends inside the
string).  Every step consumes input, so `fuel` above the length of the input
is never used up. -/
def readCssString : Nat → List Char → List Char → Option (List Char × List Char)
  | 0, _, _ => none
  | _ + 1, [], value => some (value, [])
  | fuel + 1, c :: cs, value =>
    if c.val == 0x22 then some (value, cs)
    else if c.val == 0x0A then none
    else if c.val == 0x5C then
      match cs with
      | [] => some (value, [])
      | d :: ds =>
        if d.val == 0x0A then readCssString fuel ds value
        else
          match hexDigit d with
          | some _ =>
            let (n, rest) := readHex 6 0 (d :: ds)
            let rest :=
              match rest with
              | w :: ws => if isCssWhitespace w then ws else w :: ws
              | [] => []
            readCssString fuel rest (value ++ [escapedChar n])
          | none => readCssString fuel ds (value ++ [d])
    else readCssString fuel cs (value ++ [c])

/-- The selector text `.nav-link[href="#${sectionId}"]` as `querySelector`
reads it: the value its quoted string has, or `none` when the text is not a
selector and `querySelector` raises a `SyntaxError`.  The text is a selector
when the string ends at the quotation mark of the template, or at the end of
the text, where an open string and an open bracket are closed.  When a
quotation mark of the id ends the string early, as in `a"b`, more text follows
the string and the result is `none`.  The one kind of id for which this is not
what `querySelector` does is an id that, after its quotation mark, closes the
bracket itself and goes on with selector text that opens a new string or
bracket, as `x"],[y=` does; such ids are outside what is proved below. -/
def pastedSelector (sectionId : String) : Option String :=
  let text := cssPreprocess ("#" ++ sectionId ++ "\"]").data
  match readCssString (text.length + 1) text [] with
  | none => none
  | some (value, rest) =>
    if rest == [Char.ofNat 0x5D] || rest == [] then some ⟨value⟩ else none

/-- The statements after the clearing loop, for a selector whose quoted string
has the value `value`: the first matching link, if any, gets `active`. -/
def markActiveLink (value : String) (doc : Document) : Document :=
  match querySelector (selNavLinkHref value) doc with
  | some activeLink => classListAdd doc activeLink "active"
  | none => doc

/-- Body of the `if` in `updateActiveNavLink` for one matching section.  When
the pasted text is not a selector, `querySelector` throws after the links have
been cleared. -/
def activateSection (dom : DOMRefs) (el : Nat) (doc : Document) : Outcome Document :=
  let sectionId := getAttributeId doc el
  let doc := clearActive dom doc
  match pastedSelector sectionId with
  | none => .threw doc
  | some value => .returned (markActiveLink value doc)

/-- One turn of the loop over `DOM.sections`; after a throw the loop is over. -/
def sectionStep (dom : DOMRefs) (v : View) (acc : Outcome Document) (el : Nat) :
    Outcome Document :=
  match acc with
  | .threw doc => .threw doc
  | .returned doc => if inActiveRange dom v el then activateSection dom el doc else .returned doc

/-- The function `updateActiveNavLink`, with the way the call ends. -/
def updateActiveNavLinkOutcome (dom : DOMRefs) (v : View) (doc : Document) :
    Outcome Document :=
  dom.sections.foldl (sectionStep dom v) (.returned doc)

/-- The document that a call of `updateActiveNavLink` leaves behind. -/
def updateActiveNavLink (dom : DOMRefs) (v : View) (doc : Document) : Document :=
  (updateActiveNavLinkOutcome dom v doc).world

/-! ## 9. The scroll handler -/

/-- The document that the function handed to `throttle` to build `handleScroll`
leaves behind. -/
def scrollHandler (dom : DOMRefs) (v : View) (doc : Document) : Document :=
  let doc := handleNavbarScroll dom v doc
  let doc := handleBackToTop dom v doc
  let doc := handleScrollAnimations dom v doc
  updateActiveNavLink dom v doc

/-- The function handed to `throttle` to build `handleScroll`, with the way the
call ends: the last of its four calls is the one that can throw. -/
def scrollHandlerOutcome (dom : DOMRefs) (v : View) (doc : Document) : Outcome Document :=
  let doc := handleNavbarScroll dom v doc
  let doc := handleBackToTop dom v doc
  let doc := handleScrollAnimations dom v doc
  updateActiveNavLinkOutcome dom v doc

/-! ## The places where the handlers run -/

/-- The runs of the scroll-state handlers registered by the script. -/
inductive Pass where
  /-- A `scroll` event let through by the throttle: `handleScroll`. -/
  | scroll
  /-- A `resize` event after the debounce delay: `handleScrollAnimations`. -/
  | resize
  /-- The `load` event: `handleScrollAnimations`. -/
  | load
  /-- The synchronous calls of `init`: `handleNavbarScroll`, `handleBackToTop`,
  `updateActiveNavLink`. -/
  | init
  /-- The timer set by `initAnimations`: `handleScrollAnimations`. -/
  | initAnimations
  deriving DecidableEq, Repr

/-- One pass over the document, with the window and layout it reads. -/
def runPass (dom : DOMRefs) (p : Pass) (v : View) (doc : Document) : Document :=
  match p with
  | .scroll => scrollHandler dom v doc
  | .resize => handleScrollAnimations dom v doc
  | .load => handleScrollAnimations dom v doc
  | .init =>
    let doc := handleNavbarScroll dom v doc
    let doc := handleBackToTop dom v doc
    updateActiveNavLink dom v doc
  | .initAnimations => handleScrollAnimations dom v doc

/-- A sequence of passes, each at its own scroll position and layout. -/
def runPasses (dom : DOMRefs) (passes : List (Pass × View)) (doc : Document) : Document :=
  passes.foldl (fun doc p => runPass dom p.1 p.2 doc) doc

/-! ## 7. Contact form: validation

Strings are sequences of Unicode characters.  The pattern has no `u` flag and
works on UTF-16 code units, but its classes treat the two code units of a
supplementary character alike (both are neither white space nor `@`), so
matching character by character gives the same result.
-/

/-- The characters matched by `\s` and stripped by `String.prototype.trim`:
ECMAScript WhiteSpace (tab, vertical tab, form feed, space, no-break space,
zero-width no-break space, the other space separators) and LineTerminator
(line feed, carriage return, line and paragraph separator). -/
def isWhiteSpace (c : Char) : Bool :=
  c.val == 0x09 || c.val == 0x0A || c.val == 0x0B || c.val == 0x0C || c.val == 0x0D ||
    c.val == 0x20 || c.val == 0xA0 || c.val == 0x1680 ||
    (0x2000 ≤ c.val && c.val ≤ 0x200A) ||
    c.val == 0x2028 || c.val == 0x2029 || c.val == 0x202F || c.val == 0x205F ||
    c.val == 0x3000 || c.val == 0xFEFF

/-- An item inside a character class. -/
inductive ClassItem where
  /-- The escape `\s`. -/
  | space
  /-- A single character. -/
  | char (c : Char)
  deriving DecidableEq, Repr

/-- Whether a class item covers a character. -/
def ClassItem.covers : ClassItem → Char → Bool
  | .space, c => isWhiteSpace c
  | .char d, c => c == d

/-- An atom of a pattern: a literal character or a negated class `[^...]`. -/
inductive Atom where
  | literal (c : Char)
  | negatedClass (items : List ClassItem)
  deriving DecidableEq, Repr

/-- Whether an atom matches one character. -/
def Atom.accepts : Atom → Char → Bool
  | .literal d, c => c == d
  | .negatedClass items, c => !(items.any (fun i => i.covers c))

/-- An atom with its quantifier: none, or `+`. -/
inductive Piece where
  | one (a : Atom)
  | plus (a : Atom)
  deriving DecidableEq, Repr

/-- A pattern of the shape `^ piece ... piece $`. -/
abbrev Pattern := List Piece

/-- Whether all of the input matches the pieces (the pattern is anchored at both
ends, so a match must start at the first character and end at the last). -/
def matchPieces : List Char → Pattern → Bool
  | [], [] => true
  | _ :: _, [] => false
  | [], _ :: _ => false
  | c :: cs, .one a :: rest => a.accepts c && matchPieces cs rest
  | c :: cs, .plus a :: rest =>
    a.accepts c && (matchPieces cs (.plus a :: rest) || matchPieces cs rest)

/-- The call `regex.test(string)` for an anchored pattern without flags. -/
def Pattern.test (p : Pattern) (s : String) : Bool := matchPieces s.data p

/-- The class `[^\s@]`. -/
def notSpaceOrAt : Atom := .negatedClass [.space, .char '@']

/-- The pattern `/^[^\s@]+@[^\s@]+\.[^\s@]+$/` of `validateForm` and of the
newsletter handler. -/
def emailRegex : Pattern :=
  [.plus notSpaceOrAt, .one (.literal '@'), .plus notSpaceOrAt, .one (.literal '.'),
    .plus notSpaceOrAt]

/-- Method `String.prototype.trim`. -/
def trim (s : String) : String :=
  ⟨((s.data.dropWhile isWhiteSpace).reverse.dropWhile isWhiteSpace).reverse⟩

/-- The object `formData` built by the submit handler of the contact form. -/
structure FormData where
  name : String
  email : String
  subject : String
  message : String
  deriving DecidableEq, Repr

/-- The function `validateForm(data)`; an empty string is falsy. -/
def validateForm (data : FormData) : Bool :=
  if trim data.name == "" || trim data.email == "" || trim data.message == "" then
    false
  else if !emailRegex.test data.email then
    false
  else
    true

/-! ## 8. Utility functions

Timers are modelled by a table of pending timers with the time at which each
becomes due.  Time is logical: a call happens at an instant, a timer callback
runs at the instant the timer becomes due (a real timer never runs earlier),
and before an event at time `now` is handled every timer due by `now` has run.
The delay handed to `setTimeout` is converted as the platform converts it, to
a whole number of milliseconds in 32 bits; the extra delay that the platform
may add (nested timers, a busy event loop) is not modelled.

The function handed to `debounce` or `throttle` is a parameter: from its
arguments and the state it works on it either returns or throws.  It does not
call the debounced or throttled function itself; the calls of that function
are the events given to `run`.
-/

/-- A pending timer: the id `setTimeout` returned, the time at which it becomes
due, and its callback. -/
structure Timer (κ : Type) where
  id : Nat
  due : ℚ
  callback : κ

/-- The timer table of the window. -/
structure Timers (κ : Type) where
  nextId : Nat
  pending : List (Timer κ)

/-- The timer table of a fresh page. -/
def Timers.empty {κ : Type} : Timers κ := ⟨1, []⟩

/-- Conversion of a number to the 32-bit integer type `long` of the platform
interface: the fraction is dropped and the whole number wraps modulo `2^32`
into the range from `-2^31` to `2^31 - 1`. -/
def toLong (x : ℚ) : Int :=
  let whole : Int := if 0 ≤ x then ⌊x⌋ else ⌈x⌉
  let wrapped : Int := whole % 2 ^ 32
  if wrapped < 2 ^ 31 then wrapped else wrapped - 2 ^ 32

/-- The delay that `setTimeout` works with: its argument converted to a `long`,
a negative result counting as zero. -/
def effectiveDelay (delay : ℚ) : ℚ := max ((toLong delay : Int) : ℚ) 0

/-- The call `setTimeout(callback, delay)` at time `now`: returns the new id. -/
def setTimeout {κ : Type} (callback : κ) (delay : ℚ) (now : ℚ) (ts : Timers κ) :
    Nat × Timers κ :=
  (ts.nextId,
    { nextId := ts.nextId + 1,
      pending := ts.pending ++
        [{ id := ts.nextId, due := now + effectiveDelay delay, callback }] })

/-- The call `clearTimeout(id)`; `none` is `clearTimeout(undefined)`, which does nothing. -/
def clearTimeout {κ : Type} (id : Option Nat) (ts : Timers κ) : Timers κ :=
  match id with
  | none => ts
  | some i => { ts with pending := ts.pending.filter (fun t => t.id != i) }

/-- The first pending timer that is due by `now`.  All timers of one closure
have the same delay, so the first in creation order is the earliest due. -/
def Timers.nextDue {κ : Type} (ts : Timers κ) (now : ℚ) : Option (Timer κ) :=
  ts.pending.find? (fun t => decide (t.due ≤ now))

/-- Remove a timer that is about to run. -/
def Timers.remove {κ : Type} (ts : Timers κ) (id : Nat) : Timers κ :=
  { ts with pending := ts.pending.filter (fun t => t.id != id) }

/-! ### `debounce` -/

/-- The closure created by one call `debounce(func, wait)`: the variable
`timeout`, the timers it has set (the callback `later` of a timer is determined
by the arguments `args` it closes over), the state `func` works on, and the
record of the invocations of `func` (time and arguments). -/
structure DebounceState (α σ : Type) where
  timeout : Option Nat
  timers : Timers α
  world : σ
  invocations : List (ℚ × α)

/-- State right after `debounce(func, wait)` returned: `timeout` is undefined. -/
def DebounceState.fresh {α σ : Type} (world : σ) : DebounceState α σ :=
  { timeout := none, timers := Timers.empty, world := world, invocations := [] }

/-- The callback `later` of `debounce`, run at time `now` for a call that had
arguments `args`: `clearTimeout(timeout); func(...args)`. -/
def later {α σ : Type} (func : α → σ → Outcome σ) (now : ℚ) (args : α)
    (st : DebounceState α σ) : DebounceState α σ :=
  let timers := clearTimeout st.timeout st.timers
  let world :=
    match func args st.world with
    | .returned w => w
    | .threw w => w
  { st with timers := timers, world := world, invocations := st.invocations ++ [(now, args)] }

/-- The function `executedFunction` returned by `debounce(func, wait)`, called
at time `now`: `clearTimeout(timeout); timeout = setTimeout(later, wait)`. -/
def executedFunction {α σ : Type} (wait : ℚ) (now : ℚ) (args : α)
    (st : DebounceState α σ) : DebounceState α σ :=
  let timers := clearTimeout st.timeout st.timers
  let (id, timers) := setTimeout args wait now timers
  { st with timeout := some id, timers := timers }

/-- Run, earliest first, the timers of the closure that are due by `now`; each
runs `later` at the time it became due.  `fuel` bounds the number of timers
run; callbacks set no timers, so the number of pending timers is enough. -/
def DebounceState.runTimers {α σ : Type} (func : α → σ → Outcome σ) :
    Nat → ℚ → DebounceState α σ → DebounceState α σ
  | 0, _, st => st
  | fuel + 1, now, st =>
    match st.timers.nextDue now with
    | none => st
    | some t =>
      DebounceState.runTimers func fuel now
        (later func t.due t.callback { st with timers := st.timers.remove t.id })

/-- Let time pass until `now`. -/
def DebounceState.advance {α σ : Type} (func : α → σ → Outcome σ) (now : ℚ)
    (st : DebounceState α σ) : DebounceState α σ :=
  DebounceState.runTimers func st.timers.pending.length now st

/-- A sequence of calls of the debounced function, each with its time. -/
def DebounceState.run {α σ : Type} (func : α → σ → Outcome σ) (wait : ℚ)
    (calls : List (ℚ × α)) (st : DebounceState α σ) : DebounceState α σ :=
  calls.foldl (fun st c => executedFunction wait c.1 c.2 (DebounceState.advance func c.1 st)) st

/-! ### `throttle` -/

/-- The closure created by one call `throttle(func, limit)`: the variable
`inThrottle`, the timers it has set (each runs `inThrottle = false`), the state
`func` works on, and the record of the invocations of `func`. -/
structure ThrottleState (α σ : Type) where
  inThrottle : Bool
  timers : Timers Unit
  world : σ
  invocations : List (ℚ × α)

/-- State right after `throttle(func, limit)` returned: `inThrottle` is
undefined, which is falsy. -/
def ThrottleState.fresh {α σ : Type} (world : σ) : ThrottleState α σ :=
  { inThrottle := false, timers := Timers.empty, world := world, invocations := [] }

/-- The function returned by `throttle(func, limit)`, called at time `now`.
When `func` throws, the exception leaves the function before
`inThrottle = true` and `setTimeout` are reached. -/
def throttled {α σ : Type} (func : α → σ → Outcome σ) (limit : ℚ) (now : ℚ) (args : α)
    (st : ThrottleState α σ) : ThrottleState α σ :=
  if !st.inThrottle then
    match func args st.world with
    | .threw w => { st with world := w, invocations := st.invocations ++ [(now, args)] }
    | .returned w =>
      let (_, timers) := setTimeout () limit now st.timers
      { inThrottle := true, timers := timers, world := w,
        invocations := st.invocations ++ [(now, args)] }
  else st

/-- Run the timers of the closure that are due by `now`; each runs
`inThrottle = false`. -/
def ThrottleState.runTimers {α σ : Type} :
    Nat → ℚ → ThrottleState α σ → ThrottleState α σ
  | 0, _, st => st
  | fuel + 1, now, st =>
    match st.timers.nextDue now with
    | none => st
    | some t =>
      ThrottleState.runTimers fuel now
        { st with inThrottle := false, timers := st.timers.remove t.id }

/-- Let time pass until `now`. -/
def ThrottleState.advance {α σ : Type} (now : ℚ) (st : ThrottleState α σ) :
    ThrottleState α σ :=
  ThrottleState.runTimers st.timers.pending.length now st

/-- A sequence of calls of the throttled function, each with its time. -/
def ThrottleState.run {α σ : Type} (func : α → σ → Outcome σ) (limit : ℚ)
    (calls : List (ℚ × α)) (st : ThrottleState α σ) : ThrottleState α σ :=
  calls.foldl (fun st c => throttled func limit c.1 c.2 (ThrottleState.advance c.1 st)) st

/-- The listener `handleScroll`: the scroll handler behind
`throttle(..., CONFIG.debounceDelay)`.  The argument of a call is the window and
layout at the time of the event; the state worked on is the document. -/
def handleScroll (dom : DOMRefs) (now : ℚ) (v : View) (st : ThrottleState View Document) :
    ThrottleState View Document :=
  throttled (fun v doc => scrollHandlerOutcome dom v doc) CONFIG.debounceDelay now v st

/-! ## 7. Contact form: the submit handler, notifications, the newsletter form

The markup of the page is not part of the script; what the handlers read from
it is a parameter of the state: the form controls with their current and
initial values, the button that `button[type="submit"]` finds inside the
contact form (if any), the e-mail input of the newsletter form (if any), and
the elements of class `notification`.
-/

/-- A form control of the page: an element with a `value`. -/
structure Control where
  /-- The `id` attribute, if present. -/
  id : Option String
  /-- The current `value`. -/
  value : String
  /-- The value that `form.reset()` restores: the initial value given in the
  markup, empty when the markup gives none. -/
  defaultValue : String
  /-- Whether the control belongs to the contact form. -/
  inForm : Bool
  deriving DecidableEq, Repr

/-- The submit button, as far as the handler touches it. -/
structure Button where
  innerHTML : String
  disabled : Bool
  deriving DecidableEq, Repr

/-- An element of class `notification`; `key` tells the elements apart. -/
structure Notification where
  key : Nat
  className : String
  /-- The class of the icon inside the notification. -/
  icon : String
  message : String
  background : String
  color : String
  /-- The value of `style.animation`. -/
  animation : String
  deriving DecidableEq, Repr

/-- The callbacks that the handlers of this section hand to `setTimeout`. -/
inductive PageCallback where
  /-- The arrow function of the submit handler (1500 ms); it closes over the
  button and over `originalText`. -/
  | submitted (originalText : String)
  /-- The auto-remove callback of `showNotification` (5000 ms). -/
  | autoRemove (notification : Nat)
  /-- The callback `() => notification.remove()` (300 ms). -/
  | removeNotification (notification : Nat)
  deriving DecidableEq, Repr

/-- The part of the page that the form handlers read and write. -/
structure PageState where
  /-- The form controls of the document, in document order. -/
  controls : List Control
  /-- Result of `this.querySelector('button[type="submit"]')` on the contact
  form. -/
  submitBtn : Option Button
  /-- The `value` of the `input[type="email"]` of the newsletter form, if the
  form has such an input. -/
  newsletterEmail : Option String
  /-- The elements of class `notification`, in document order. -/
  notifications : List Notification
  /-- The key that the next created notification gets. -/
  nextKey : Nat
  /-- The number of `style` elements appended to the head. -/
  styleElements : Nat
  /-- The pending timers. -/
  timers : Timers PageCallback

/-- The expression `document.getElementById(id)?.value || ''`. -/
def fieldValue (st : PageState) (id : String) : String :=
  match st.controls.find? (fun c => c.id == some id) with
  | some c => c.value
  | none => ""

/-- The object `formData` of the submit handler. -/
def readFormData (st : PageState) : FormData where
  name := fieldValue st "name"
  email := fieldValue st "email"
  subject := fieldValue st "subject"
  message := fieldValue st "message"

/-- The function `showNotification(message, type)` called at time `now`: the
first existing notification is removed, the new one is appended to the body, a
`style` element is appended to the head, and the auto-remove timer is set. -/
def showNotification (message : String) (type : String) (now : ℚ) (st : PageState) :
    PageState :=
  let notification : Notification :=
    { key := st.nextKey
      className := "notification notification-" ++ type
      icon := if type == "success" then "bi-check-circle" else "bi-exclamation-circle"
      message := message
      background := if type == "success" then "#E8F5E9" else "#FFEBEE"
      color := if type == "success" then "#2E7D32" else "#C62828"
      animation := "slideInRight 0.4s ease" }
  let (_, timers) := setTimeout (PageCallback.autoRemove notification.key) 5000 now st.timers
  { st with
    notifications := st.notifications.drop 1 ++ [notification]
    nextKey := st.nextKey + 1
    styleElements := st.styleElements + 1
    timers := timers }

/-- The two statements shared by the close button and the auto-remove timer:
start the slide-out animation and remove the notification 300 ms later. -/
def slideOut (key : Nat) (now : ℚ) (st : PageState) : PageState :=
  let notifications := st.notifications.map (fun n =>
    if n.key == key then { n with animation := "slideOutRight 0.3s ease forwards" } else n)
  let (_, timers) := setTimeout (PageCallback.removeNotification key) 300 now st.timers
  { st with notifications := notifications, timers := timers }

/-- The `click` listener of the close button of a notification. -/
def closeClicked (key : Nat) (now : ℚ) (st : PageState) : PageState :=
  slideOut key now st

/-- The method `form.reset()` of the contact form: every control of the form
gets back its initial value. -/
def formReset (st : PageState) : PageState :=
  { st with
    controls := st.controls.map (fun c =>
      if c.inForm then { c with value := c.defaultValue } else c) }

/-- The label shown while the submission is simulated. -/
def loadingLabel : String := "<i class=\"bi bi-hourglass-split me-2\"></i>Mengirim..."

/-- A timer callback of this section, run at time `now`. -/
def runCallback (callback : PageCallback) (now : ℚ) (st : PageState) : PageState :=
  match callback with
  | .submitted originalText =>
    let st := formReset st
    let st :=
      { st with
        submitBtn := st.submitBtn.map (fun _ => { innerHTML := originalText, disabled := false }) }
    showNotification "Pesan Anda berhasil dikirim! Kami akan segera menghubungi Anda."
      "success" now st
  | .autoRemove key =>
    if st.notifications.any (fun n => n.key == key) then slideOut key now st else st
  | .removeNotification key =>
    { st with notifications := st.notifications.filter (fun n => n.key != key) }

/-- A pending timer becomes due and runs: it leaves the table and its callback
runs at the time the timer was due. -/
def fireTimer (t : Timer PageCallback) (st : PageState) : PageState :=
  runCallback t.callback t.due { st with timers := st.timers.remove t.id }

/-- The `submit` listener of the contact form, called at time `now`.  Reading
`submitBtn.innerHTML` when the query found no button raises a `TypeError`,
which ends the listener. -/
def submitHandler (now : ℚ) (st : PageState) : Outcome PageState :=
  let formData := readFormData st
  if !validateForm formData then
    .returned (showNotification "Mohon lengkapi semua field yang wajib diisi." "error" now st)
  else
    match st.submitBtn with
    | none => .threw st
    | some submitBtn =>
      let originalText := submitBtn.innerHTML
      let submitBtn : Button := { innerHTML := loadingLabel, disabled := true }
      let (_, timers) := setTimeout (PageCallback.submitted originalText) 1500 now st.timers
      .returned { st with submitBtn := some submitBtn, timers := timers }

/-- The `submit` listener of the newsletter form, called at time `now`. -/
def newsletterHandler (now : ℚ) (st : PageState) : Outcome PageState :=
  let email := st.newsletterEmail.getD ""
  if trim email == "" then
    .returned (showNotification "Mohon masukkan alamat email Anda." "error" now st)
  else if !emailRegex.test email then
    .returned (showNotification "Mohon masukkan alamat email yang valid." "error" now st)
  else
    let st :=
      showNotification "Terima kasih! Anda berhasil berlangganan newsletter kami." "success"
        now st
    match st.newsletterEmail with
    | none => .threw st
    | some _ => .returned { st with newsletterEmail := some "" }

/-! ## Auxiliary notions used to state the properties -/

/-- The part of an element that no handler changes: its tag, the attributes the
script reads, and whether it is a `.nav-link`. -/
def Element.markup (e : Element) : String × Option String × Option String × Option String × Bool :=
  (e.tagName, e.id, e.href, e.dataAos, selNavLink e)

/-- Two documents with the same elements up to class tokens other than
`nav-link`. -/
def SameMarkup (doc doc' : Document) : Prop :=
  doc'.map Element.markup = doc.map Element.markup

/-- A selector that only looks at the markup of an element. -/
def MarkupSelector (sel : Element → Bool) : Prop :=
  ∀ e e' : Element, e.markup = e'.markup → sel e = sel e'

/-- The scroll offset `s = window.scrollY` lies in the active range of the
section at position `el`:
`[offsetTop - navbarHeight - 100, offsetTop - navbarHeight - 100 + offsetHeight)`,
closed below and open above. -/
def InActiveRange (dom : DOMRefs) (v : View) (el : Nat) : Prop :=
  v.offsetTop el - navbarHeight dom v - 100 ≤ v.scrollY ∧
    v.scrollY < v.offsetTop el - navbarHeight dom v - 100 + v.offsetHeight el

/-- The navigation links (members of `DOM.navLinks`) that carry `active`. -/
def activeLinks (dom : DOMRefs) (doc : Document) : List Nat :=
  dom.navLinks.filter (fun link => hasClass doc link "active")

/-- The `href` attribute of the element at position `el`. -/
def hrefOf (doc : Document) (el : Nat) : Option String :=
  match doc[el]? with
  | some e => e.href
  | none => none

/-- Position `link` is the first navigation link of the document, in document
order, whose `href` attribute is `value`. -/
def IsFirstLinkTo (doc : Document) (value : String) (link : Nat) : Prop :=
  link ∈ (DOM doc).navLinks ∧ hrefOf doc link = some value ∧
    ∀ j ∈ (DOM doc).navLinks, j < link → hrefOf doc j ≠ some value

/-- Every `.nav-link` element of the document is among `dom.navLinks`. -/
def LinksCover (dom : DOMRefs) (doc : Document) : Prop :=
  ∀ i e, doc[i]? = some e → selNavLink e = true → i ∈ dom.navLinks

/-- The `id` attribute of the element at position `el`. -/
def idOf (doc : Document) (el : Nat) : Option String :=
  match doc[el]? with
  | some e => e.id
  | none => none

/-- State of a debounce closure in the middle of a burst: `func` has not been
invoked, and the only pending timer is the one set by the latest call `c`, due
`wait` after it, whose id is held by `timeout`. -/
def DebouncePending {α σ : Type} (wait : ℚ) (world : σ) (c : ℚ × α)
    (st : DebounceState α σ) : Prop :=
  st.invocations = [] ∧ st.world = world ∧
    ∃ id, st.timeout = some id ∧ st.timers.pending = [{ id := id, due := c.1 + wait, callback := c.2 }]

/-- A non-empty string that contains neither a white-space character nor `@`. -/
def IsEmailPart (s : String) : Prop :=
  s ≠ "" ∧ ∀ c ∈ s.data, isWhiteSpace c = false ∧ c ≠ '@'

/-- The timer that the submit handler sets when it is called at time `now` in
state `st` for a button whose label is `originalText`: it gets the next free
id, is due 1500 ms later and runs the callback that closes over
`originalText`. -/
def submissionTimer (st : PageState) (now : ℚ) (originalText : String) : Timer PageCallback :=
  { id := st.timers.nextId, due := now + 1500, callback := PageCallback.submitted originalText }

/-- The text pasted for the section at `el` is a selector. -/
def readable (doc : Document) (el : Nat) : Bool :=
  (pastedSelector (getAttributeId doc el)).isSome

/-- An id that can be pasted between the quotation marks of the selector
template and is read back unchanged: it has no quotation mark, no backslash, no
line feed, carriage return or form feed, and no NUL. -/
def SelectorSafe (s : String) : Prop :=
  ∀ c ∈ s.data, c.val ≠ 0x22 ∧ c.val ≠ 0x5C ∧ c.val ≠ 0x0A ∧ c.val ≠ 0x0D ∧ c.val ≠ 0x0C ∧
    c.val ≠ 0

instance (s : String) : Decidable (SelectorSafe s) := by
  unfold SelectorSafe
  infer_instance

/-- The double that `isInViewport` compares the top of an element with, in a
window of height `height`: `height - height * 0.15` as the script computes
it. -/
def revealThreshold (height : ℚ) : ℚ :=
  toDouble (height - toDouble (height * CONFIG.animationOffset))


/-! ## Sample pages -/

/-- A page with a navbar, two navigation links, two sections and the
back-to-top control; both links are marked `active` in the markup. -/
def pageTwoActive : Document :=
  [ { tagName := "nav", id := some "mainNavbar", classList := ["navbar"] },
    { tagName := "a", href := some "#home", classList := ["nav-link", "active"] },
    { tagName := "a", href := some "#about", classList := ["nav-link", "active"] },
    { tagName := "section", id := some "home", dataAos := some "fade-up" },
    { tagName := "section", id := some "about", dataAos := some "fade-up" },
    { tagName := "a", id := some "backToTop", href := some "#" } ]

/-- The same page with only the link to `#about` marked `active`. -/
def pageAboutActive : Document :=
  [ { tagName := "nav", id := some "mainNavbar", classList := ["navbar"] },
    { tagName := "a", href := some "#home", classList := ["nav-link"] },
    { tagName := "a", href := some "#about", classList := ["nav-link", "active"] },
    { tagName := "section", id := some "home", dataAos := some "fade-up" },
    { tagName := "section", id := some "about", dataAos := some "fade-up" },
    { tagName := "a", id := some "backToTop", href := some "#" } ]

/-- The sample page with `sectionId` as the id of the second section and a
link to it; both links are marked `active` in the markup. -/
def pageWithId (sectionId : String) : Document :=
  [ { tagName := "nav", id := some "mainNavbar", classList := ["navbar"] },
    { tagName := "a", href := some "#home", classList := ["nav-link", "active"] },
    { tagName := "a", href := some ("#" ++ sectionId), classList := ["nav-link", "active"] },
    { tagName := "section", id := some "home", dataAos := some "fade-up" },
    { tagName := "section", id := some sectionId, dataAos := some "fade-up" },
    { tagName := "a", id := some "backToTop", href := some "#" } ]

/-- The sample page with no link marked `active`, for the given id. -/
def pageWithIdCleared (sectionId : String) : Document :=
  [ { tagName := "nav", id := some "mainNavbar", classList := ["navbar"] },
    { tagName := "a", href := some "#home", classList := ["nav-link"] },
    { tagName := "a", href := some ("#" ++ sectionId), classList := ["nav-link"] },
    { tagName := "section", id := some "home", dataAos := some "fade-up" },
    { tagName := "section", id := some sectionId, dataAos := some "fade-up" },
    { tagName := "a", id := some "backToTop", href := some "#" } ]

/-- An id with a quotation mark in it: the three characters `a`, `"`, `b`. -/
def quoteId : String := ⟨[Char.ofNat 0x61, Char.ofNat 0x22, Char.ofNat 0x62]⟩

/-- An id with a backslash in it: the three characters `a`, backslash, `b`. -/
def backslashId : String := ⟨[Char.ofNat 0x61, Char.ofNat 0x5C, Char.ofNat 0x62]⟩

/-- A layout of the sample pages at scroll offset `s`: navbar 60 high, section
`home` at 300 and `about` at 800, both 500 high, in a window 800 high.  The
active ranges are `[140, 640)` and `[640, 1140)`. -/
def sampleView (s : ℚ) : View where
  scrollY := s
  innerHeight := 800
  clientHeight := 800
  offsetTop := fun el => if el = 3 then 300 else if el = 4 then 800 else 0
  offsetHeight := fun el => if el = 0 then 60 else if el = 3 ∨ el = 4 then 500 else 40
  boundingRect := fun el =>
    if el = 3 then { top := 300 - s, bottom := 800 - s }
    else if el = 4 then { top := 800 - s, bottom := 1300 - s }
    else { top := 0, bottom := 40 }

/-- A layout in which the two sections overlap: `home` is 1000 high, so the
active ranges are `[140, 1140)` and `[640, 1140)`. -/
def overlapView (s : ℚ) : View where
  scrollY := s
  innerHeight := 800
  clientHeight := 800
  offsetTop := fun el => if el = 3 then 300 else if el = 4 then 800 else 0
  offsetHeight := fun el =>
    if el = 0 then 60 else if el = 3 then 1000 else if el = 4 then 500 else 40
  boundingRect := fun el =>
    if el = 3 then { top := 300 - s, bottom := 1300 - s }
    else if el = 4 then { top := 800 - s, bottom := 1300 - s }
    else { top := 0, bottom := 40 }

/-- The sample page after section `home` has been revealed. -/
def pageRevealed : Document :=
  [ { tagName := "nav", id := some "mainNavbar", classList := ["navbar"] },
    { tagName := "a", href := some "#home", classList := ["nav-link", "active"] },
    { tagName := "a", href := some "#about", classList := ["nav-link"] },
    { tagName := "section", id := some "home", dataAos := some "fade-up",
      classList := ["aos-animate"] },
    { tagName := "section", id := some "about", dataAos := some "fade-up" },
    { tagName := "a", id := some "backToTop", href := some "#" } ]

/-! ## Sample functions for the rate limiters -/

/-- A function that counts its invocations and returns. -/
def countingFunc (_args : Nat) (count : Nat) : Outcome Nat := .returned (count + 1)

/-- A function that counts its invocations and then throws. -/
def throwingFunc (_args : Nat) (count : Nat) : Outcome Nat := .threw (count + 1)

/-- Ten calls, one per millisecond from time 0 to time 9, the call at time `i`
carrying the argument `i`. -/
def tenCalls : List (ℚ × Nat) :=
  [(0, 0), (1, 1), (2, 2), (3, 3), (4, 4), (5, 5), (6, 6), (7, 7), (8, 8), (9, 9)]

/-- A view in which the element at position 0 has the given bounding box, in a
window of the given height. -/
def boxView (height top bottom : ℚ) : View where
  scrollY := 0
  innerHeight := height
  clientHeight := height
  offsetTop := fun _ => 0
  offsetHeight := fun _ => 0
  boundingRect := fun _ => { top := top, bottom := bottom }

/-! ## Sample contact pages -/

/-- A contact page with the four fields inside the form and no initial values,
filled in with name `Ani`, e-mail `ani@mail.com`, no subject and the given
message; no notification is shown and no timer is pending. -/
def contactPage (message : String) (submitBtn : Option Button)
    (newsletterEmail : Option String) : PageState where
  controls :=
    [ { id := some "name", value := "Ani", defaultValue := "", inForm := true },
      { id := some "email", value := "ani@mail.com", defaultValue := "", inForm := true },
      { id := some "subject", value := "", defaultValue := "", inForm := true },
      { id := some "message", value := message, defaultValue := "", inForm := true } ]
  submitBtn := submitBtn
  newsletterEmail := newsletterEmail
  notifications := []
  nextKey := 0
  styleElements := 0
  timers := Timers.empty

/-- The submit button of the sample page. -/
def sendButton : Button := { innerHTML := "Kirim Pesan", disabled := false }

/-! ## Class-list algebra -/

theorem tokenContains_iff (l : List String) (t : String) :
    tokenContains l t = true ↔ t ∈ l := by
  simp [tokenContains]

theorem tokenContains_tokenAdd (t t' : String) (l : List String) :
    tokenContains (tokenAdd t l) t' = (tokenContains l t' || t' == t) := by
  rw [Bool.eq_iff_iff]
  unfold tokenAdd
  by_cases h : t ∈ l
  · have h' : l.contains t = true := by simpa using h
    rw [if_pos h']
    by_cases e : t' = t
    · subst e; simp [tokenContains, h]
    · simp [e]
  · have h' : ¬ l.contains t = true := by simpa using h
    rw [if_neg h']
    simp [tokenContains]

theorem tokenContains_tokenRemove (t t' : String) (l : List String) :
    tokenContains (tokenRemove t l) t' = (tokenContains l t' && t' != t) := by
  rw [Bool.eq_iff_iff]
  simp [tokenContains, tokenRemove, List.mem_filter]

theorem tokenAdd_of_mem {t : String} {l : List String} (h : t ∈ l) : tokenAdd t l = l := by
  simp [tokenAdd, h]

theorem tokenRemove_of_not_mem {t : String} {l : List String} (h : t ∉ l) :
    tokenRemove t l = l := by
  unfold tokenRemove
  rw [List.filter_eq_self]
  intro a ha
  have : a ≠ t := fun e => h (e ▸ ha)
  simpa using this

theorem not_mem_tokenRemove (t : String) (l : List String) : t ∉ tokenRemove t l := by
  simp [tokenRemove, List.mem_filter]

theorem tokenRemove_tokenRemove (t : String) (l : List String) :
    tokenRemove t (tokenRemove t l) = tokenRemove t l :=
  tokenRemove_of_not_mem (not_mem_tokenRemove t l)

theorem tokenRemove_tokenAdd (t : String) (l : List String) :
    tokenRemove t (tokenAdd t l) = tokenRemove t l := by
  unfold tokenAdd
  split
  · rfl
  · simp [tokenRemove, List.filter_append]

theorem mem_tokenAdd (t : String) (l : List String) : t ∈ tokenAdd t l := by
  have := tokenContains_tokenAdd t t l
  rw [← tokenContains_iff, this]; simp

theorem tokenAdd_tokenAdd (t : String) (l : List String) :
    tokenAdd t (tokenAdd t l) = tokenAdd t l :=
  tokenAdd_of_mem (mem_tokenAdd t l)

/-! ## Documents: element-wise description of the class-list updates -/

theorem getElem?_modifyClass (f : List String → List String) (el : Nat) (doc : Document)
    (j : Nat) :
    (List.modify (Element.mapClassList f) el doc)[j]? =
      (doc[j]?).map (fun e => if el = j then e.mapClassList f else e) := by
  rw [List.getElem?_modify]; rfl

theorem getElem?_classListAdd (doc : Document) (el : Nat) (t : String) (j : Nat) :
    (classListAdd doc el t)[j]? =
      (doc[j]?).map (fun e => if el = j then e.mapClassList (tokenAdd t) else e) :=
  getElem?_modifyClass _ el doc j

theorem getElem?_classListRemove (doc : Document) (el : Nat) (t : String) (j : Nat) :
    (classListRemove doc el t)[j]? =
      (doc[j]?).map (fun e => if el = j then e.mapClassList (tokenRemove t) else e) :=
  getElem?_modifyClass _ el doc j

theorem length_classListAdd (doc : Document) (el : Nat) (t : String) :
    (classListAdd doc el t).length = doc.length := by
  simp [classListAdd]

theorem length_classListRemove (doc : Document) (el : Nat) (t : String) :
    (classListRemove doc el t).length = doc.length := by
  simp [classListRemove]

theorem hasClass_classListAdd (doc : Document) (el : Nat) (t : String) (j : Nat) (t' : String) :
    hasClass (classListAdd doc el t) j t' =
      (hasClass doc j t' || (decide (el = j) && t' == t && decide (j < doc.length))) := by
  unfold hasClass
  rw [getElem?_classListAdd]
  rcases h : doc[j]? with _ | e
  · have : ¬ j < doc.length := by
      intro hj; rw [List.getElem?_eq_getElem hj] at h; cases h
    simp [this]
  · have hj : j < doc.length := by
      by_contra hj
      rw [List.getElem?_eq_none (Nat.le_of_not_lt hj)] at h; cases h
    by_cases e' : el = j
    · simp [e', hj, Element.mapClassList, tokenContains_tokenAdd]
    · simp [e']

theorem hasClass_classListRemove (doc : Document) (el : Nat) (t : String) (j : Nat)
    (t' : String) :
    hasClass (classListRemove doc el t) j t' =
      (hasClass doc j t' && !(decide (el = j) && t' == t)) := by
  unfold hasClass
  rw [getElem?_classListRemove]
  rcases h : doc[j]? with _ | e
  · simp
  · by_cases e' : el = j
    · simp [e', Element.mapClassList, tokenContains_tokenRemove, bne]
    · simp [e']

theorem SameMarkup.refl (doc : Document) : SameMarkup doc doc := rfl

theorem SameMarkup.trans {a b c : Document} (h₁ : SameMarkup a b) (h₂ : SameMarkup b c) :
    SameMarkup a c := by
  unfold SameMarkup at *; rw [h₂, h₁]

theorem SameMarkup.symm {a b : Document} (h : SameMarkup a b) : SameMarkup b a := by
  unfold SameMarkup at *; rw [h]

theorem SameMarkup.length_eq {a b : Document} (h : SameMarkup a b) : b.length = a.length := by
  have := congrArg List.length h
  simpa using this

theorem SameMarkup.getElem? {a b : Document} (h : SameMarkup a b) (j : Nat) :
    (b[j]?).map Element.markup = (a[j]?).map Element.markup := by
  have := congrArg (fun l => l[j]?) h
  simpa [List.getElem?_map] using this

theorem sameMarkup_modifyClass (f : List String → List String)
    (hf : ∀ l, tokenContains (f l) "nav-link" = tokenContains l "nav-link")
    (el : Nat) (doc : Document) :
    SameMarkup doc (List.modify (Element.mapClassList f) el doc) := by
  unfold SameMarkup
  apply List.ext_getElem?
  intro j
  rw [List.getElem?_map, List.getElem?_map, getElem?_modifyClass]
  rcases doc[j]? with _ | e
  · rfl
  · by_cases e' : el = j
    · simp [e', Element.markup, Element.mapClassList, selNavLink, hf]
    · simp [e']

theorem sameMarkup_classListAdd (doc : Document) (el : Nat) {t : String} (ht : t ≠ "nav-link") :
    SameMarkup doc (classListAdd doc el t) := by
  apply sameMarkup_modifyClass
  intro l
  rw [tokenContains_tokenAdd]
  have : ("nav-link" == t) = false := by simpa using fun h => ht h.symm
  simp [this]

theorem sameMarkup_classListRemove (doc : Document) (el : Nat) {t : String}
    (ht : t ≠ "nav-link") : SameMarkup doc (classListRemove doc el t) := by
  apply sameMarkup_modifyClass
  intro l
  rw [tokenContains_tokenRemove]
  have : ("nav-link" != t) = true := by simpa using fun h => ht h.symm
  simp [this]

theorem markupSelector_selNavLink : MarkupSelector selNavLink := by
  intro e e' h
  simp only [Element.markup, Prod.mk.injEq] at h
  exact h.2.2.2.2

theorem markupSelector_selDataAos : MarkupSelector selDataAos := by
  intro e e' h
  simp only [Element.markup, Prod.mk.injEq] at h
  simp [selDataAos, h.2.2.2.1]

theorem markupSelector_selSectionWithId : MarkupSelector selSectionWithId := by
  intro e e' h
  simp only [Element.markup, Prod.mk.injEq] at h
  simp [selSectionWithId, h.1, h.2.1]

theorem markupSelector_selNavLinkHref (value : String) :
    MarkupSelector (selNavLinkHref value) := by
  intro e e' h
  simp only [Element.markup, Prod.mk.injEq] at h
  simp [selNavLinkHref, h.2.2.1, h.2.2.2.2]

theorem markupSelector_id (id : String) : MarkupSelector (fun e => e.id == some id) := by
  intro e e' h
  simp only [Element.markup, Prod.mk.injEq] at h
  simp [h.2.1]

theorem querySelectorAll_sameMarkup {sel : Element → Bool} (hs : MarkupSelector sel)
    {doc doc' : Document} (h : SameMarkup doc doc') :
    querySelectorAll sel doc' = querySelectorAll sel doc := by
  unfold querySelectorAll
  rw [h.length_eq]
  apply List.filter_congr
  intro j _
  have hj := h.getElem? j
  rcases h1 : doc[j]? with _ | e <;> rcases h2 : doc'[j]? with _ | e' <;>
    rw [h1, h2] at hj <;> simp at hj ⊢
  exact hs _ _ hj

theorem querySelector_sameMarkup {sel : Element → Bool} (hs : MarkupSelector sel)
    {doc doc' : Document} (h : SameMarkup doc doc') :
    querySelector sel doc' = querySelector sel doc := by
  unfold querySelector; rw [querySelectorAll_sameMarkup hs h]

theorem getAttributeId_sameMarkup {doc doc' : Document} (h : SameMarkup doc doc') (el : Nat) :
    getAttributeId doc' el = getAttributeId doc el := by
  unfold getAttributeId
  have hj := h.getElem? el
  rcases h1 : doc[el]? with _ | e <;> rcases h2 : doc'[el]? with _ | e' <;>
    rw [h1, h2] at hj <;> simp at hj ⊢
  simp only [Element.markup, Prod.mk.injEq] at hj
  rw [hj.2.1]

theorem DOM_sameMarkup {doc doc' : Document} (h : SameMarkup doc doc') : DOM doc' = DOM doc := by
  simp only [DOM, getElementById, querySelector_sameMarkup (markupSelector_id _) h,
    querySelectorAll_sameMarkup markupSelector_selNavLink h,
    querySelectorAll_sameMarkup markupSelector_selDataAos h,
    querySelectorAll_sameMarkup markupSelector_selSectionWithId h]

theorem mem_querySelectorAll {sel : Element → Bool} {doc : Document} {i : Nat} :
    i ∈ querySelectorAll sel doc ↔ ∃ e, doc[i]? = some e ∧ sel e = true := by
  unfold querySelectorAll
  rw [List.mem_filter, List.mem_range]
  constructor
  · rintro ⟨hi, h⟩
    rw [List.getElem?_eq_getElem hi] at h
    exact ⟨doc[i], List.getElem?_eq_getElem hi, h⟩
  · rintro ⟨e, he, hs⟩
    have hi : i < doc.length := by
      by_contra hj
      rw [List.getElem?_eq_none (Nat.le_of_not_lt hj)] at he; cases he
    exact ⟨hi, by rw [he]; exact hs⟩

theorem nodup_querySelectorAll (sel : Element → Bool) (doc : Document) :
    (querySelectorAll sel doc).Nodup :=
  (List.nodup_range _).filter _

/-! ## The selector text -/

theorem cssPreprocessChar_of_safe {c : Char} (h1 : c.val ≠ 0x0D) (h2 : c.val ≠ 0x0C)
    (h3 : c.val ≠ 0) : cssPreprocessChar c = c := by
  simp [cssPreprocessChar, h1, h2, h3]

theorem cssPreprocess_of_safe (cs : List Char)
    (h : ∀ c ∈ cs, c.val ≠ 0x0D ∧ c.val ≠ 0x0C ∧ c.val ≠ 0) : cssPreprocess cs = cs := by
  induction cs using cssPreprocess.induct with
  | case1 => rfl
  | case2 c =>
    obtain ⟨h1, h2, h3⟩ := h c (by simp)
    simp [cssPreprocess, cssPreprocessChar_of_safe h1 h2 h3]
  | case3 c d ds hcd ih =>
    obtain ⟨h1, _, _⟩ := h c (by simp)
    simp [h1] at hcd
  | case4 c d ds hcd ih =>
    obtain ⟨h1, h2, h3⟩ := h c (by simp)
    rw [cssPreprocess, if_neg hcd, cssPreprocessChar_of_safe h1 h2 h3,
      ih (fun x hx => h x (List.mem_cons_of_mem c hx))]

theorem readCssString_of_safe (cs : List Char)
    (h : ∀ c ∈ cs, c.val ≠ 0x22 ∧ c.val ≠ 0x0A ∧ c.val ≠ 0x5C) (rest value : List Char)
    (fuel : Nat) (hf : cs.length < fuel) :
    readCssString fuel (cs ++ Char.ofNat 0x22 :: rest) value = some (value ++ cs, rest) := by
  induction cs generalizing fuel value with
  | nil =>
    obtain ⟨n, rfl⟩ : ∃ n, fuel = n + 1 := ⟨fuel - 1, by simp at hf; omega⟩
    simp [readCssString]
  | cons c cs ih =>
    obtain ⟨n, rfl⟩ : ∃ n, fuel = n + 1 := ⟨fuel - 1, by omega⟩
    obtain ⟨h1, h2, h3⟩ := h c (by simp)
    rw [List.cons_append]
    unfold readCssString
    simp only [beq_iff_eq, h1, h2, h3, if_false]
    rw [ih (fun x hx => h x (List.mem_cons_of_mem c hx)) _ n (by simpa using hf)]
    simp

/-- For an id free of quotation mark, backslash, line break and NUL the pasted
text is the selector of the template: its string has the value `#` plus id. -/
theorem pastedSelector_of_safe {s : String} (h : SelectorSafe s) :
    pastedSelector s = some ("#" ++ s) := by
  have htext : ("#" ++ s ++ "\"]").data =
      (Char.ofNat 0x23 :: s.data) ++ Char.ofNat 0x22 :: [Char.ofNat 0x5D] := by
    simp only [String.data_append]
    rfl
  have hpre : cssPreprocess ("#" ++ s ++ "\"]").data = ("#" ++ s ++ "\"]").data := by
    apply cssPreprocess_of_safe
    rw [htext]
    intro c hc
    simp only [List.mem_append, List.mem_cons, List.mem_singleton, List.not_mem_nil,
      or_false] at hc
    rcases hc with (rfl | hc) | rfl | rfl
    · decide
    · obtain ⟨_, _, _, h4, h5, h6⟩ := h c hc
      exact ⟨h4, h5, h6⟩
    · decide
    · decide
  unfold pastedSelector
  simp only [hpre]
  rw [htext, readCssString_of_safe _ _ _ _ _ (by simp)]
  · simp only [List.nil_append, beq_self_eq_true, Bool.true_or, if_true, Option.some.injEq]
    apply String.ext
    simp only [String.data_append]
    rfl
  · intro c hc
    simp only [List.mem_cons] at hc
    rcases hc with rfl | hc
    · decide
    · obtain ⟨h1, h2, h3, _⟩ := h c hc
      exact ⟨h1, h3, h2⟩

/-! ## The active navigation link -/

theorem orElse_self (a : ℚ) : orElse a a = a := by
  unfold orElse; split <;> simp_all

theorem scrollPosition_eq (v : View) : scrollPosition v = v.scrollY :=
  orElse_self _

theorem inActiveRange_iff (dom : DOMRefs) (v : View) (el : Nat) :
    inActiveRange dom v el = true ↔ InActiveRange dom v el := by
  simp [inActiveRange, InActiveRange, sectionTop, sectionBottom, scrollPosition_eq]

theorem getElem?_foldl_classListRemove (t : String) (links : List Nat) (doc : Document)
    (j : Nat) :
    (links.foldl (fun doc link => classListRemove doc link t) doc)[j]? =
      (doc[j]?).map (fun e => if j ∈ links then e.mapClassList (tokenRemove t) else e) := by
  induction links generalizing doc with
  | nil => simp
  | cons l ls ih =>
    rw [List.foldl_cons, ih, getElem?_classListRemove]
    rcases doc[j]? with _ | e
    · rfl
    · have h3 : l = j ↔ j = l := eq_comm
      by_cases h1 : j = l <;> by_cases h2 : j ∈ ls <;>
        simp [h3, h1, h2, Element.mapClassList, tokenRemove_tokenRemove]

theorem getElem?_clearActive (dom : DOMRefs) (doc : Document) (j : Nat) :
    (clearActive dom doc)[j]? =
      (doc[j]?).map (fun e =>
        if j ∈ dom.navLinks then e.mapClassList (tokenRemove "active") else e) :=
  getElem?_foldl_classListRemove _ _ _ _

theorem sameMarkup_foldl {α : Type} (f : Document → α → Document)
    (hf : ∀ d a, SameMarkup d (f d a)) (l : List α) (doc : Document) :
    SameMarkup doc (l.foldl f doc) := by
  induction l generalizing doc with
  | nil => exact SameMarkup.refl _
  | cons a l ih => exact (hf doc a).trans (ih _)

theorem sameMarkup_clearActive (dom : DOMRefs) (doc : Document) :
    SameMarkup doc (clearActive dom doc) :=
  sameMarkup_foldl _ (fun d a => sameMarkup_classListRemove d a (by decide)) _ _

theorem sameMarkup_markActiveLink (value : String) (doc : Document) :
    SameMarkup doc (markActiveLink value doc) := by
  unfold markActiveLink
  split
  · exact sameMarkup_classListAdd _ _ (by decide)
  · exact SameMarkup.refl doc

theorem activateSection_world (dom : DOMRefs) (el : Nat) (doc : Document) :
    (activateSection dom el doc).world =
      match pastedSelector (getAttributeId doc el) with
      | none => clearActive dom doc
      | some value => markActiveLink value (clearActive dom doc) := by
  unfold activateSection
  simp only
  split <;> rfl

theorem sameMarkup_activateSection (dom : DOMRefs) (el : Nat) (doc : Document) :
    SameMarkup doc (activateSection dom el doc).world := by
  rw [activateSection_world]
  split
  · exact sameMarkup_clearActive dom doc
  · exact (sameMarkup_clearActive dom doc).trans (sameMarkup_markActiveLink _ _)

theorem foldl_sectionStep_threw (dom : DOMRefs) (v : View) (l : List Nat) (d : Document) :
    l.foldl (sectionStep dom v) (.threw d) = .threw d := by
  induction l with
  | nil => rfl
  | cons a l ih => exact ih

/-- A property of the document that every run of the body of the `if` keeps is
kept by the loop of `updateActiveNavLink`. -/
theorem foldl_sectionStep_world (dom : DOMRefs) (v : View) (P : Document → Prop)
    (hstep : ∀ d el, P d → P (activateSection dom el d).world) (l : List Nat)
    (acc : Outcome Document) (h : P acc.world) :
    P (l.foldl (sectionStep dom v) acc).world := by
  induction l generalizing acc with
  | nil => exact h
  | cons a l ih =>
    rw [List.foldl_cons]
    apply ih
    cases acc with
    | threw d => exact h
    | returned d =>
      simp only [sectionStep]
      split
      · exact hstep d a h
      · exact h

theorem sameMarkup_updateActiveNavLink (dom : DOMRefs) (v : View) (doc : Document) :
    SameMarkup doc (updateActiveNavLink dom v doc) :=
  foldl_sectionStep_world dom v (fun d => SameMarkup doc d)
    (fun d el h => h.trans (sameMarkup_activateSection dom el d)) _ _ (SameMarkup.refl doc)

theorem linksCover_DOM (doc : Document) : LinksCover (DOM doc) doc := by
  intro i e he hs
  exact mem_querySelectorAll.mpr ⟨e, he, hs⟩

theorem LinksCover.sameMarkup {dom : DOMRefs} {doc doc' : Document} (h : LinksCover dom doc)
    (hm : SameMarkup doc doc') : LinksCover dom doc' := by
  intro i e' he' hs'
  have hj := hm.getElem? i
  rw [he'] at hj
  rcases h1 : doc[i]? with _ | e
  · rw [h1] at hj; simp at hj
  · rw [h1] at hj
    simp only [Option.map_some', Option.some.injEq] at hj
    exact h i e h1 (by rw [markupSelector_selNavLink e e' hj.symm]; exact hs')

/-- The link that `querySelector` returns for the section at `el`. -/
theorem querySelector_mem_navLinks {dom : DOMRefs} {doc : Document} (h : LinksCover dom doc)
    {value : String} {a : Nat} (ha : querySelector (selNavLinkHref value) doc = some a) :
    a ∈ dom.navLinks := by
  have : a ∈ querySelectorAll (selNavLinkHref value) doc := by
    unfold querySelector at ha
    exact List.mem_of_mem_head? ha
  obtain ⟨e, he, hs⟩ := mem_querySelectorAll.mp this
  simp only [selNavLinkHref, Bool.and_eq_true] at hs
  exact h a e he hs.1

theorem clearActive_clearActive (dom : DOMRefs) (doc : Document) :
    clearActive dom (clearActive dom doc) = clearActive dom doc := by
  apply List.ext_getElem?
  intro j
  rw [getElem?_clearActive, getElem?_clearActive]
  rcases doc[j]? with _ | e
  · rfl
  · by_cases h : j ∈ dom.navLinks <;> simp [h, Element.mapClassList, tokenRemove_tokenRemove]

theorem clearActive_classListAdd {dom : DOMRefs} {a : Nat} (ha : a ∈ dom.navLinks)
    (doc : Document) :
    clearActive dom (classListAdd doc a "active") = clearActive dom doc := by
  apply List.ext_getElem?
  intro j
  rw [getElem?_clearActive, getElem?_clearActive, getElem?_classListAdd]
  rcases doc[j]? with _ | e
  · rfl
  · by_cases h1 : a = j
    · subst h1; simp [ha, Element.mapClassList, tokenRemove_tokenAdd]
    · simp [h1]

theorem clearActive_markActiveLink {dom : DOMRefs} {doc : Document} (h : LinksCover dom doc)
    (value : String) : clearActive dom (markActiveLink value doc) = clearActive dom doc := by
  unfold markActiveLink
  split
  · rename_i a ha
    exact clearActive_classListAdd (querySelector_mem_navLinks h ha) doc
  · rfl

theorem clearActive_activateSection {dom : DOMRefs} {doc : Document} (h : LinksCover dom doc)
    (el : Nat) : clearActive dom (activateSection dom el doc).world = clearActive dom doc := by
  rw [activateSection_world]
  split
  · exact clearActive_clearActive dom doc
  · rw [clearActive_markActiveLink (h.sameMarkup (sameMarkup_clearActive dom doc)),
      clearActive_clearActive]

theorem activateSection_congr {dom : DOMRefs} {doc doc' : Document} (hm : SameMarkup doc doc')
    (hc : clearActive dom doc' = clearActive dom doc) (el : Nat) :
    activateSection dom el doc' = activateSection dom el doc := by
  unfold activateSection
  simp only [hc, getAttributeId_sameMarkup hm]

theorem activateSection_of_not_readable (dom : DOMRefs) {doc : Document} {el : Nat}
    (h : readable doc el = false) :
    activateSection dom el doc = .threw (clearActive dom doc) := by
  unfold readable at h
  unfold activateSection
  simp only
  rcases hp : pastedSelector (getAttributeId doc el) with _ | value
  · rfl
  · rw [hp] at h; cases h

/-- Closed form of the loop of `updateActiveNavLink`: when the text pasted for
every section in range is a selector, only the last section in range counts;
otherwise the call throws with the links cleared. -/
theorem foldl_sections_eq (dom : DOMRefs) (v : View) (doc : Document) (h : LinksCover dom doc)
    (l : List Nat) :
    l.foldl (sectionStep dom v) (.returned doc) =
      match (l.filter (inActiveRange dom v)).getLast? with
      | none => .returned doc
      | some el =>
        if (l.filter (inActiveRange dom v)).all (readable doc) = true
        then activateSection dom el doc else .threw (clearActive dom doc) := by
  induction l using List.reverseRecOn with
  | nil => rfl
  | append_singleton l a ih =>
    rw [List.foldl_append, List.filter_append, ih]
    by_cases ha : inActiveRange dom v a = true
    · have hf : List.filter (inActiveRange dom v) [a] = [a] := by simp [ha]
      rw [hf, List.getLast?_concat, List.all_append]
      simp only [List.foldl_cons, List.foldl_nil, List.all_cons, List.all_nil, Bool.and_true]
      rcases hl : (l.filter (inActiveRange dom v)).getLast? with _ | b
      · have hnil : l.filter (inActiveRange dom v) = [] := List.getLast?_eq_none_iff.mp hl
        simp only [hnil, List.all_nil, Bool.true_and, sectionStep, ha, if_true]
        by_cases hr : readable doc a = true
        · simp [hr]
        · simp only [hr]
          exact activateSection_of_not_readable dom (by simpa using hr)
      · simp only
        by_cases hall : (l.filter (inActiveRange dom v)).all (readable doc) = true
        · rw [if_pos hall, hall, Bool.true_and]
          have hstep : sectionStep dom v (activateSection dom b doc) a =
              activateSection dom a doc := by
            have hc := clearActive_activateSection h b
            have hm := sameMarkup_activateSection dom b doc
            cases hb : activateSection dom b doc with
            | threw d =>
              exfalso
              have hrb : readable doc b = true :=
                List.all_eq_true.mp hall b (List.mem_of_mem_getLast? hl)
              unfold readable at hrb
              unfold activateSection at hb
              simp only at hb
              rcases hp : pastedSelector (getAttributeId doc b) with _ | value
              · rw [hp] at hrb; cases hrb
              · rw [hp] at hb; cases hb
            | returned d =>
              rw [hb] at hc hm
              simp only [sectionStep, ha, if_true]
              exact activateSection_congr hm hc a
          rw [hstep]
          by_cases hr : readable doc a = true
          · simp [hr]
          · simp only [hr]
            exact activateSection_of_not_readable dom (by simpa using hr)
        · rw [if_neg hall]
          have hall' : (l.filter (inActiveRange dom v)).all (readable doc) = false := by
            simpa using hall
          rw [hall', Bool.false_and]
          rfl
    · have hf : List.filter (inActiveRange dom v) [a] = [] := by simp [ha]
      rw [hf, List.append_nil]
      simp only [List.foldl_cons, List.foldl_nil]
      rcases hl : (l.filter (inActiveRange dom v)).getLast? with _ | b
      · simp only [sectionStep, ha]
        rfl
      · simp only
        split
        · cases hb : activateSection dom b doc with
          | threw d => rfl
          | returned d => simp only [sectionStep, ha]; rfl
        · rfl

theorem updateActiveNavLinkOutcome_eq (dom : DOMRefs) (v : View) (doc : Document)
    (h : LinksCover dom doc) :
    updateActiveNavLinkOutcome dom v doc =
      match (dom.sections.filter (inActiveRange dom v)).getLast? with
      | none => .returned doc
      | some el =>
        if (dom.sections.filter (inActiveRange dom v)).all (readable doc) = true
        then activateSection dom el doc else .threw (clearActive dom doc) :=
  foldl_sections_eq dom v doc h dom.sections

theorem updateActiveNavLink_eq (dom : DOMRefs) (v : View) (doc : Document)
    (h : LinksCover dom doc) :
    updateActiveNavLink dom v doc =
      match (dom.sections.filter (inActiveRange dom v)).getLast? with
      | none => doc
      | some el =>
        if (dom.sections.filter (inActiveRange dom v)).all (readable doc) = true
        then (activateSection dom el doc).world else clearActive dom doc := by
  unfold updateActiveNavLink
  rw [updateActiveNavLinkOutcome_eq dom v doc h]
  split
  · rfl
  · split <;> rfl

theorem hasClass_clearActive (dom : DOMRefs) (doc : Document) (j : Nat) (t : String) :
    hasClass (clearActive dom doc) j t =
      (hasClass doc j t && !(decide (j ∈ dom.navLinks) && t == "active")) := by
  unfold hasClass
  rw [getElem?_clearActive]
  rcases doc[j]? with _ | e
  · simp
  · by_cases h : j ∈ dom.navLinks
    · simp [h, Element.mapClassList, tokenContains_tokenRemove, bne]
    · simp [h]

theorem querySelector_eq_some_iff {sel : Element → Bool} {doc : Document} {i : Nat} :
    querySelector sel doc = some i ↔
      (∃ e, doc[i]? = some e ∧ sel e = true) ∧
        ∀ j, j < i → ∀ e, doc[j]? = some e → sel e = false := by
  unfold querySelector querySelectorAll
  rw [List.filter_head?, List.find?_range_eq_some]
  constructor
  · rintro ⟨h1, h2, h3⟩
    rw [List.mem_range] at h2
    refine ⟨⟨doc[i], List.getElem?_eq_getElem h2, ?_⟩, ?_⟩
    · simpa [List.getElem?_eq_getElem h2] using h1
    · intro j hj e he
      have := h3 j hj
      rw [he] at this
      simpa using this
  · rintro ⟨⟨e, he, hs⟩, h3⟩
    have hi : i < doc.length := by
      by_contra hj
      rw [List.getElem?_eq_none (Nat.le_of_not_lt hj)] at he; cases he
    refine ⟨by rw [he]; exact hs, List.mem_range.mpr hi, ?_⟩
    intro j hj
    rcases h : doc[j]? with _ | e'
    · rfl
    · simp [h3 j hj e' h]

theorem isFirstLinkTo_iff (doc : Document) (value : String) (link : Nat) :
    IsFirstLinkTo doc value link ↔ querySelector (selNavLinkHref value) doc = some link := by
  rw [querySelector_eq_some_iff]
  unfold IsFirstLinkTo
  simp only [DOM, mem_querySelectorAll, hrefOf]
  constructor
  · rintro ⟨⟨e, he, hs⟩, hh, hfirst⟩
    rw [he] at hh
    simp only at hh
    refine ⟨⟨e, he, by simp [selNavLinkHref, hs, hh]⟩, ?_⟩
    intro j hj e' he'
    by_cases hn : selNavLink e' = true
    · have := hfirst j ⟨e', he', hn⟩ hj
      rw [he'] at this
      simp [selNavLinkHref, hn, this]
    · simp [selNavLinkHref, hn]
  · rintro ⟨⟨e, he, hs⟩, hfirst⟩
    simp only [selNavLinkHref, Bool.and_eq_true, beq_iff_eq] at hs
    refine ⟨⟨e, he, hs.1⟩, by rw [he]; exact hs.2, ?_⟩
    rintro j ⟨e', he', hn⟩ hj
    have := hfirst j hj e' he'
    rw [he']
    simp only [selNavLinkHref, hn, Bool.true_and, beq_eq_false_iff_ne] at this
    exact this

theorem hasClass_markActiveLink {dom : DOMRefs} {doc : Document} (value : String)
    {link : Nat} (hl : link ∈ dom.navLinks) :
    hasClass (markActiveLink value (clearActive dom doc)) link "active" = true ↔
      querySelector (selNavLinkHref value) doc = some link := by
  unfold markActiveLink
  rw [querySelector_sameMarkup (markupSelector_selNavLinkHref _) (sameMarkup_clearActive dom doc)]
  rcases hq : querySelector (selNavLinkHref value) doc with _ | a
  · simp [hasClass_clearActive, hl]
  · have hlt : a < (clearActive dom doc).length := by
      rw [(sameMarkup_clearActive dom doc).length_eq]
      obtain ⟨⟨e, he, _⟩, _⟩ := querySelector_eq_some_iff.mp hq
      by_contra hj
      rw [List.getElem?_eq_none (Nat.le_of_not_lt hj)] at he; cases he
    simp only [hasClass_classListAdd, hasClass_clearActive, hl, decide_True, beq_self_eq_true,
      Bool.and_self, Bool.not_true, Bool.and_false, Bool.false_or, Bool.and_true,
      Bool.and_eq_true, decide_eq_true_eq, Option.some.injEq]
    constructor
    · exact fun h => h.1
    · intro h; subst h; exact ⟨rfl, hlt⟩

theorem hasClass_clearActive_active {dom : DOMRefs} (doc : Document) {link : Nat}
    (hl : link ∈ dom.navLinks) : hasClass (clearActive dom doc) link "active" = false := by
  simp [hasClass_clearActive, hl]

/-- After the body of the `if` has run for a section, the active links are the
link that the pasted selector finds, if it is a selector and finds one. -/
theorem hasClass_activateSection {dom : DOMRefs} {doc : Document}
    (el : Nat) {link : Nat} (hl : link ∈ dom.navLinks) :
    hasClass (activateSection dom el doc).world link "active" = true ↔
      ∃ value, pastedSelector (getAttributeId doc el) = some value ∧
        querySelector (selNavLinkHref value) doc = some link := by
  rw [activateSection_world]
  rcases hp : pastedSelector (getAttributeId doc el) with _ | value
  · simp [hasClass_clearActive_active doc hl]
  · simp only [hasClass_markActiveLink value hl, Option.some.injEq, exists_eq_left']

theorem length_filter_le_one_of_nodup {l : List Nat} (hl : l.Nodup) (p : Nat → Bool) (a : Nat)
    (hp : ∀ i ∈ l, p i = true → i = a) : (l.filter p).length ≤ 1 := by
  have hn : (l.filter p).Nodup := hl.filter p
  have ha : ∀ i ∈ l.filter p, i = a := fun i hi =>
    hp i (List.mem_filter.mp hi).1 (List.mem_filter.mp hi).2
  rcases hfl : l.filter p with _ | ⟨x, _ | ⟨y, r⟩⟩
  · simp
  · simp
  · rw [hfl] at hn ha
    have hx := ha x (by simp)
    have hy := ha y (by simp)
    rw [List.nodup_cons] at hn
    exact absurd (by simp [hx, hy]) hn.1

theorem exists_inActiveRange_iff (dom : DOMRefs) (v : View) :
    (dom.sections.filter (inActiveRange dom v)).getLast? = none ↔
      ∀ s ∈ dom.sections, ¬ InActiveRange dom v s := by
  rw [List.getLast?_eq_none_iff, List.filter_eq_nil_iff]
  simp only [inActiveRange_iff]

theorem getLast?_filter_of_split {l pre post : List Nat} {sec : Nat} (p : Nat → Bool)
    (hsplit : l = pre ++ sec :: post) (hsec : p sec = true) (hpost : ∀ s ∈ post, ¬ p s = true) :
    (l.filter p).getLast? = some sec := by
  subst hsplit
  have hpost' : post.filter p = [] := List.filter_eq_nil_iff.mpr hpost
  rw [List.filter_append, List.filter_cons, if_pos hsec, hpost', List.getLast?_append]
  simp

/-! ## What each handler does to a class token -/

theorem foldl_hasClass_eq {α : Type} (f : Document → α → Document) (j : Nat) (t : String)
    (hf : ∀ d a, hasClass (f d a) j t = hasClass d j t) (l : List α) (doc : Document) :
    hasClass (l.foldl f doc) j t = hasClass doc j t := by
  induction l generalizing doc with
  | nil => rfl
  | cons a l ih => rw [List.foldl_cons, ih, hf]

theorem foldl_hasClass_mono {α : Type} (f : Document → α → Document) (j : Nat) (t : String)
    (hf : ∀ d a, hasClass d j t = true → hasClass (f d a) j t = true) (l : List α)
    (doc : Document) (h : hasClass doc j t = true) :
    hasClass (l.foldl f doc) j t = true := by
  induction l generalizing doc with
  | nil => exact h
  | cons a l ih => exact ih _ (hf doc a h)

theorem hasClass_classListAdd_of_ne (doc : Document) (el : Nat) {t t' : String} (h : t' ≠ t)
    (j : Nat) : hasClass (classListAdd doc el t) j t' = hasClass doc j t' := by
  rw [hasClass_classListAdd]
  have : (t' == t) = false := by simpa using h
  simp [this]

theorem hasClass_classListRemove_of_ne (doc : Document) (el : Nat) {t t' : String}
    (h : t' ≠ t) (j : Nat) : hasClass (classListRemove doc el t) j t' = hasClass doc j t' := by
  rw [hasClass_classListRemove]
  have : (t' == t) = false := by simpa using h
  simp [this]

theorem hasClass_classListAdd_mono (doc : Document) (el : Nat) (t : String) (j : Nat)
    (t' : String) (h : hasClass doc j t' = true) :
    hasClass (classListAdd doc el t) j t' = true := by
  rw [hasClass_classListAdd, h]; rfl

theorem lt_length_of_hasClass {doc : Document} {el : Nat} {t : String}
    (h : hasClass doc el t = true) : el < doc.length := by
  by_contra hj
  unfold hasClass at h
  rw [List.getElem?_eq_none (Nat.le_of_not_lt hj)] at h
  cases h

theorem classListAdd_of_hasClass {doc : Document} {el : Nat} {t : String}
    (h : hasClass doc el t = true) : classListAdd doc el t = doc := by
  apply List.ext_getElem?
  intro j
  rw [getElem?_classListAdd]
  rcases hd : doc[j]? with _ | e
  · rfl
  · by_cases hj : el = j
    · subst hj
      unfold hasClass at h
      rw [hd] at h
      have hm : t ∈ e.classList := (tokenContains_iff _ _).mp h
      simp [Element.mapClassList, tokenAdd_of_mem hm]
    · simp [hj]

theorem classListAdd_of_length_le {doc : Document} {el : Nat} (t : String)
    (h : doc.length ≤ el) : classListAdd doc el t = doc := by
  apply List.ext_getElem?
  intro j
  rw [getElem?_classListAdd]
  rcases hd : doc[j]? with _ | e
  · rfl
  · by_cases hj : el = j
    · subst hj
      rw [List.getElem?_eq_none h] at hd; cases hd
    · simp [hj]

theorem classListRemove_of_not_hasClass {doc : Document} {el : Nat} {t : String}
    (h : hasClass doc el t = false) : classListRemove doc el t = doc := by
  apply List.ext_getElem?
  intro j
  rw [getElem?_classListRemove]
  rcases hd : doc[j]? with _ | e
  · rfl
  · by_cases hj : el = j
    · subst hj
      unfold hasClass at h
      rw [hd] at h
      simp only at h
      have hm : t ∉ e.classList := by
        intro hm
        rw [(tokenContains_iff _ _).mpr hm] at h
        cases h
      simp [Element.mapClassList, tokenRemove_of_not_mem hm]
    · simp [hj]

/-! ### `handleNavbarScroll` -/

theorem hasClass_handleNavbarScroll_of_ne (dom : DOMRefs) (v : View) (doc : Document)
    {t : String} (h : t ≠ "scrolled") (j : Nat) :
    hasClass (handleNavbarScroll dom v doc) j t = hasClass doc j t := by
  unfold handleNavbarScroll
  split
  · rfl
  · split
    · exact hasClass_classListAdd_of_ne _ _ h j
    · exact hasClass_classListRemove_of_ne _ _ h j

theorem sameMarkup_handleNavbarScroll (dom : DOMRefs) (v : View) (doc : Document) :
    SameMarkup doc (handleNavbarScroll dom v doc) := by
  unfold handleNavbarScroll
  split
  · exact SameMarkup.refl _
  · split
    · exact sameMarkup_classListAdd _ _ (by decide)
    · exact sameMarkup_classListRemove _ _ (by decide)

theorem hasClass_handleNavbarScroll (dom : DOMRefs) (v : View) (doc : Document) {navbar : Nat}
    (hn : dom.navbar = some navbar) (hlt : navbar < doc.length) :
    hasClass (handleNavbarScroll dom v doc) navbar "scrolled" = true ↔ v.scrollY > 50 := by
  unfold handleNavbarScroll
  rw [hn]
  simp only [scrollPosition_eq, CONFIG]
  split
  · rename_i h
    simp [hasClass_classListAdd, hlt, h]
  · rename_i h
    simp [hasClass_classListRemove, h]

theorem handleNavbarScroll_fixed (dom : DOMRefs) (v : View) (doc : Document)
    (h : ∀ navbar, dom.navbar = some navbar → navbar < doc.length →
      (hasClass doc navbar "scrolled" = true ↔ v.scrollY > 50)) :
    handleNavbarScroll dom v doc = doc := by
  unfold handleNavbarScroll
  split
  · rfl
  · rename_i navbar hn
    simp only [scrollPosition_eq, CONFIG]
    by_cases hlt : navbar < doc.length
    · split
      · rename_i hs
        exact classListAdd_of_hasClass ((h navbar hn hlt).mpr hs)
      · rename_i hs
        apply classListRemove_of_not_hasClass
        rw [Bool.eq_false_iff]
        exact fun hc => hs ((h navbar hn hlt).mp hc)
    · split
      · exact classListAdd_of_length_le _ (Nat.le_of_not_lt hlt)
      · apply classListRemove_of_not_hasClass
        rw [Bool.eq_false_iff]
        exact fun hc => hlt (lt_length_of_hasClass hc)

/-! ### `handleBackToTop` -/

theorem hasClass_handleBackToTop_of_ne (dom : DOMRefs) (v : View) (doc : Document)
    {t : String} (h : t ≠ "visible") (j : Nat) :
    hasClass (handleBackToTop dom v doc) j t = hasClass doc j t := by
  unfold handleBackToTop
  split
  · rfl
  · split
    · exact hasClass_classListAdd_of_ne _ _ h j
    · exact hasClass_classListRemove_of_ne _ _ h j

theorem sameMarkup_handleBackToTop (dom : DOMRefs) (v : View) (doc : Document) :
    SameMarkup doc (handleBackToTop dom v doc) := by
  unfold handleBackToTop
  split
  · exact SameMarkup.refl _
  · split
    · exact sameMarkup_classListAdd _ _ (by decide)
    · exact sameMarkup_classListRemove _ _ (by decide)

theorem hasClass_handleBackToTop (dom : DOMRefs) (v : View) (doc : Document) {backToTop : Nat}
    (hn : dom.backToTop = some backToTop) (hlt : backToTop < doc.length) :
    hasClass (handleBackToTop dom v doc) backToTop "visible" = true ↔ v.scrollY > 300 := by
  unfold handleBackToTop
  rw [hn]
  simp only [scrollPosition_eq, CONFIG]
  split
  · rename_i h
    simp [hasClass_classListAdd, hlt, h]
  · rename_i h
    simp [hasClass_classListRemove, h]

theorem handleBackToTop_fixed (dom : DOMRefs) (v : View) (doc : Document)
    (h : ∀ backToTop, dom.backToTop = some backToTop → backToTop < doc.length →
      (hasClass doc backToTop "visible" = true ↔ v.scrollY > 300)) :
    handleBackToTop dom v doc = doc := by
  unfold handleBackToTop
  split
  · rfl
  · rename_i backToTop hn
    simp only [scrollPosition_eq, CONFIG]
    by_cases hlt : backToTop < doc.length
    · split
      · rename_i hs
        exact classListAdd_of_hasClass ((h backToTop hn hlt).mpr hs)
      · rename_i hs
        apply classListRemove_of_not_hasClass
        rw [Bool.eq_false_iff]
        exact fun hc => hs ((h backToTop hn hlt).mp hc)
    · split
      · exact classListAdd_of_length_le _ (Nat.le_of_not_lt hlt)
      · apply classListRemove_of_not_hasClass
        rw [Bool.eq_false_iff]
        exact fun hc => hlt (lt_length_of_hasClass hc)

/-! ### `handleScrollAnimations` -/

theorem hasClass_handleScrollAnimations_of_ne (dom : DOMRefs) (v : View) (doc : Document)
    {t : String} (h : t ≠ "aos-animate") (j : Nat) :
    hasClass (handleScrollAnimations dom v doc) j t = hasClass doc j t := by
  apply foldl_hasClass_eq
  intro d a
  split
  · exact hasClass_classListAdd_of_ne _ _ h j
  · rfl

theorem hasClass_handleScrollAnimations_mono (dom : DOMRefs) (v : View) (doc : Document)
    (j : Nat) (t : String) (h : hasClass doc j t = true) :
    hasClass (handleScrollAnimations dom v doc) j t = true := by
  apply foldl_hasClass_mono _ _ _ _ _ _ h
  intro d a hd
  split
  · exact hasClass_classListAdd_mono _ _ _ _ _ hd
  · exact hd

theorem sameMarkup_handleScrollAnimations (dom : DOMRefs) (v : View) (doc : Document) :
    SameMarkup doc (handleScrollAnimations dom v doc) := by
  apply sameMarkup_foldl
  intro d a
  split
  · exact sameMarkup_classListAdd _ _ (by decide)
  · exact SameMarkup.refl _

theorem length_foldl_animations (v : View) (l : List Nat) (doc : Document) :
    (l.foldl (fun doc element =>
      if isInViewport v element then classListAdd doc element "aos-animate" else doc)
      doc).length = doc.length := by
  induction l generalizing doc with
  | nil => rfl
  | cons a l ih =>
    rw [List.foldl_cons, ih]
    split
    · exact length_classListAdd _ _ _
    · rfl

theorem hasClass_foldl_animations (v : View) (l : List Nat) (doc : Document) {el : Nat}
    (hel : el ∈ l) (hv : isInViewport v el = true) (hlt : el < doc.length) :
    hasClass (l.foldl (fun doc element =>
      if isInViewport v element then classListAdd doc element "aos-animate" else doc)
      doc) el "aos-animate" = true := by
  induction l generalizing doc with
  | nil => cases hel
  | cons a l ih =>
    rw [List.foldl_cons]
    rcases List.mem_cons.mp hel with rfl | hl
    · rw [if_pos hv]
      apply foldl_hasClass_mono
      · intro d a hd
        split
        · exact hasClass_classListAdd_mono _ _ _ _ _ hd
        · exact hd
      · simp [hasClass_classListAdd, hlt]
    · apply ih _ hl
      split
      · rw [length_classListAdd]; exact hlt
      · exact hlt

theorem hasClass_handleScrollAnimations (dom : DOMRefs) (v : View) (doc : Document) {el : Nat}
    (hel : el ∈ dom.animatedElements) (hv : isInViewport v el = true) (hlt : el < doc.length) :
    hasClass (handleScrollAnimations dom v doc) el "aos-animate" = true :=
  hasClass_foldl_animations v _ doc hel hv hlt

theorem foldl_animations_fixed (v : View) (l : List Nat) (doc : Document)
    (h : ∀ el ∈ l, isInViewport v el = true → el < doc.length →
      hasClass doc el "aos-animate" = true) :
    l.foldl (fun doc element =>
      if isInViewport v element then classListAdd doc element "aos-animate" else doc)
      doc = doc := by
  induction l with
  | nil => rfl
  | cons a l ih =>
    rw [List.foldl_cons]
    have hstep : (if isInViewport v a = true then classListAdd doc a "aos-animate" else doc)
        = doc := by
      split
      · rename_i hv
        by_cases hlt : a < doc.length
        · exact classListAdd_of_hasClass (h a (List.mem_cons_self a l) hv hlt)
        · exact classListAdd_of_length_le _ (Nat.le_of_not_lt hlt)
      · rfl
    rw [hstep]
    exact ih (fun el hel => h el (List.mem_cons_of_mem a hel))

theorem handleScrollAnimations_fixed (dom : DOMRefs) (v : View) (doc : Document)
    (h : ∀ el ∈ dom.animatedElements, isInViewport v el = true → el < doc.length →
      hasClass doc el "aos-animate" = true) :
    handleScrollAnimations dom v doc = doc :=
  foldl_animations_fixed v _ doc h

/-! ### `updateActiveNavLink` -/

theorem hasClass_activateSection_of_ne (dom : DOMRefs) (el : Nat) (doc : Document) {t : String}
    (h : t ≠ "active") (j : Nat) :
    hasClass (activateSection dom el doc).world j t = hasClass doc j t := by
  have hb : (t == "active") = false := by simpa using h
  rw [activateSection_world]
  split
  · rw [hasClass_clearActive, hb]; simp
  · unfold markActiveLink
    split
    · rw [hasClass_classListAdd_of_ne _ _ h, hasClass_clearActive, hb]; simp
    · rw [hasClass_clearActive, hb]; simp

theorem hasClass_updateActiveNavLink_of_ne (dom : DOMRefs) (v : View) (doc : Document)
    {t : String} (h : t ≠ "active") (j : Nat) :
    hasClass (updateActiveNavLink dom v doc) j t = hasClass doc j t :=
  foldl_sectionStep_world dom v (fun d => hasClass d j t = hasClass doc j t)
    (fun d el hd => (hasClass_activateSection_of_ne dom el d h j).trans hd) _ _ rfl

theorem readable_sameMarkup {doc doc' : Document} (hm : SameMarkup doc doc') :
    readable doc' = readable doc := by
  funext el
  unfold readable
  rw [getAttributeId_sameMarkup hm]

theorem clearActive_updateActiveNavLink {dom : DOMRefs} {doc : Document} (v : View)
    (h : LinksCover dom doc) :
    clearActive dom (updateActiveNavLink dom v doc) = clearActive dom doc := by
  have := foldl_sectionStep_world dom v
    (fun d => SameMarkup doc d ∧ clearActive dom d = clearActive dom doc)
    (fun d el hd => ⟨hd.1.trans (sameMarkup_activateSection dom el d),
      (clearActive_activateSection (h.sameMarkup hd.1) el).trans hd.2⟩)
    dom.sections (.returned doc) ⟨SameMarkup.refl doc, rfl⟩
  exact this.2

theorem updateActiveNavLink_idem (dom : DOMRefs) (v : View) (doc : Document)
    (h : LinksCover dom doc) :
    updateActiveNavLink dom v (updateActiveNavLink dom v doc) = updateActiveNavLink dom v doc := by
  have hm := sameMarkup_updateActiveNavLink dom v doc
  have hc := clearActive_updateActiveNavLink v h
  rw [updateActiveNavLink_eq dom v _ (h.sameMarkup hm)]
  rcases hl : (dom.sections.filter (inActiveRange dom v)).getLast? with _ | el
  · rfl
  · simp only
    rw [readable_sameMarkup hm, hc, activateSection_congr hm hc el]
    rw [updateActiveNavLink_eq dom v doc h, hl]

/-! ## Rounding to doubles -/

theorem abs_roundHalfEven_sub_le (y : ℚ) : |(roundHalfEven y : ℚ) - y| ≤ 1 / 2 := by
  unfold roundHalfEven
  have h1 := Int.floor_le y
  have h2 := Int.lt_floor_add_one y
  simp only
  split_ifs with ha hb hc
  · rw [abs_le]; constructor <;> linarith
  · rw [abs_le]; push_cast; constructor <;> linarith
  · rw [abs_le]; constructor <;> linarith
  · rw [abs_le]; push_cast; constructor <;> linarith

theorem roundHalfEven_eq {y : ℚ} {m : Int} (h : |y - m| < 1 / 2) : roundHalfEven y = m := by
  rw [abs_lt] at h
  unfold roundHalfEven
  simp only
  by_cases hm : (m : ℚ) ≤ y
  · have hf : ⌊y⌋ = m := Int.floor_eq_iff.mpr ⟨hm, by linarith⟩
    rw [hf, if_pos (by linarith)]
  · have hf : ⌊y⌋ = m - 1 :=
      Int.floor_eq_iff.mpr ⟨by push_cast; linarith, by push_cast; linarith⟩
    rw [hf, if_neg (by push_cast; linarith), if_pos (by push_cast; linarith)]
    ring

theorem log_eq_of_bounds {x : ℚ} {k : Int} (h1 : (2 : ℚ) ^ k ≤ |x|) (h2 : |x| < 2 ^ (k + 1)) :
    Int.log 2 |x| = k := by
  have hpos : 0 < |x| := lt_of_lt_of_le (zpow_pos (by norm_num) k) h1
  apply le_antisymm
  · have := (Int.lt_zpow_iff_log_lt (by norm_num : 1 < 2) hpos).mp (by exact_mod_cast h2)
    omega
  · exact (Int.zpow_le_iff_le_log (by norm_num : 1 < 2) hpos).mp (by exact_mod_cast h1)

/-- Evaluation of `toDouble` at a number of the normal range: `k` is its binary
exponent and `m` the whole number nearest to its quotient by the spacing. -/
theorem toDouble_eq {x : ℚ} (k m : Int) (h1 : (2 : ℚ) ^ k ≤ |x|) (h2 : |x| < 2 ^ (k + 1))
    (hk : -1022 ≤ k) (hm : |x / 2 ^ (k - 52) - m| < 1 / 2) :
    toDouble x = m * 2 ^ (k - 52) := by
  have hpos : 0 < |x| := lt_of_lt_of_le (zpow_pos (by norm_num) k) h1
  have hx : x ≠ 0 := abs_pos.mp hpos
  have he : ulpExponent x = k - 52 := by
    unfold ulpExponent
    rw [log_eq_of_bounds h1 h2]
    exact max_eq_left (by omega)
  unfold toDouble
  rw [if_neg hx, he, roundHalfEven_eq hm]

theorem toDouble_zero : toDouble 0 = 0 := by
  simp [toDouble]

/-- The error of rounding to a double is at most the fraction `2 ^ (-53)` of
the number, in the normal range. -/
theorem abs_toDouble_sub_le {x : ℚ} (hx : (2 : ℚ) ^ (-1022 : Int) ≤ |x|) :
    |toDouble x - x| ≤ |x| / 2 ^ 53 := by
  have hpos : 0 < |x| := lt_of_lt_of_le (zpow_pos (by norm_num) _) hx
  have hx0 : x ≠ 0 := abs_pos.mp hpos
  have hk : (-1022 : Int) ≤ Int.log 2 |x| :=
    (Int.zpow_le_iff_le_log (by norm_num : 1 < 2) hpos).mp (by exact_mod_cast hx)
  have hle : (2 : ℚ) ^ Int.log 2 |x| ≤ |x| := by
    have := Int.zpow_log_le_self (by norm_num : 1 < 2) hpos
    exact_mod_cast this
  have he : ulpExponent x = Int.log 2 |x| - 52 := max_eq_left (by omega)
  have hpow : (0 : ℚ) < 2 ^ ulpExponent x := zpow_pos (by norm_num) _
  have hsplit : (2 : ℚ) ^ Int.log 2 |x| = 2 ^ ulpExponent x * 2 ^ 52 := by
    rw [he, zpow_sub₀ (by norm_num : (2 : ℚ) ≠ 0)]
    norm_num
  have hr := abs_roundHalfEven_sub_le (x / 2 ^ ulpExponent x)
  have hd : toDouble x - x =
      ((roundHalfEven (x / 2 ^ ulpExponent x) : ℚ) - x / 2 ^ ulpExponent x) *
        2 ^ ulpExponent x := by
    unfold toDouble
    rw [if_neg hx0]
    field_simp
  rw [hd, abs_mul, abs_of_pos hpow]
  have h3 : |(roundHalfEven (x / 2 ^ ulpExponent x) : ℚ) - x / 2 ^ ulpExponent x| *
      2 ^ ulpExponent x ≤ 1 / 2 * 2 ^ ulpExponent x :=
    mul_le_mul_of_nonneg_right hr hpow.le
  have h4 : (1 : ℚ) / 2 * 2 ^ ulpExponent x = 2 ^ Int.log 2 |x| / 2 ^ 53 := by
    rw [hsplit]
    norm_num
    ring
  have h5 : (2 : ℚ) ^ Int.log 2 |x| / 2 ^ 53 ≤ |x| / 2 ^ 53 :=
    div_le_div_of_nonneg_right hle (by positivity)
  linarith

/-- The literal `0.15` as a double. -/
theorem animationOffset_eq : CONFIG.animationOffset = 5404319552844595 / 2 ^ 55 := by
  have h := toDouble_eq (x := 15 / 100) (-3) 5404319552844595
    (by norm_num [abs_of_pos]) (by norm_num [abs_of_pos]) (by norm_num)
    (by norm_num [abs_lt])
  show toDouble (15 / 100) = _
  rw [h]
  norm_num

/-- The threshold of `isInViewport` is `height * (1 - 15 / 100)` up to the
fraction `2 ^ (-52)` of the height. -/
theorem abs_revealThreshold_sub_le {height : ℚ} (h : 1 ≤ height) :
    |revealThreshold height - height * (1 - 15 / 100)| ≤ height / 2 ^ 52 := by
  unfold revealThreshold
  rw [animationOffset_eq]
  set p : ℚ := height * (5404319552844595 / 2 ^ 55) with hp
  have hp1 : 15 / 100 * height - height / 2 ^ 55 ≤ p := by rw [hp]; norm_num; linarith
  have hp2 : p ≤ 15 / 100 * height := by rw [hp]; norm_num; linarith
  have hp0 : 0 < p := by linarith
  have ha := abs_toDouble_sub_le (x := p)
    (by rw [abs_of_pos hp0]; norm_num; linarith)
  rw [abs_of_pos hp0, abs_le] at ha
  set a : ℚ := toDouble p with hadef
  have hd0 : 0 < height - a := by
    have : p / 2 ^ 53 ≤ p := div_le_self hp0.le (by norm_num)
    linarith
  have hT := abs_toDouble_sub_le (x := height - a)
    (by
      rw [abs_of_pos hd0]
      have : p / 2 ^ 53 ≤ p := div_le_self hp0.le (by norm_num)
      norm_num
      linarith)
  rw [abs_of_pos hd0, abs_le] at hT
  have hpu : p / 2 ^ 53 ≤ 15 / 100 * height / 2 ^ 53 :=
    div_le_div_of_nonneg_right hp2 (by positivity)
  have hdu : (height - a) / 2 ^ 53 ≤ height / 2 ^ 53 := by
    apply div_le_div_of_nonneg_right _ (by positivity)
    have : 0 ≤ p / 2 ^ 53 := by positivity
    linarith
  rw [abs_le]
  norm_num at hpu hdu hp1 hp2 ha hT ⊢
  constructor <;> linarith

theorem revealThreshold_zero : revealThreshold 0 = 0 := by
  simp [revealThreshold, toDouble_zero]

/-- The bound on the threshold, for the window heights that occur: whole
numbers of pixels, so zero or at least one. -/
theorem abs_revealThreshold_sub_le_of_whole {height : ℚ} (h : height = 0 ∨ 1 ≤ height) :
    |revealThreshold height - height * (1 - 15 / 100)| ≤ height / 2 ^ 52 := by
  rcases h with h | h
  · rw [h, revealThreshold_zero]
    norm_num
  · exact abs_revealThreshold_sub_le h

/-! ## Timers, `throttle`, `debounce` -/

theorem toLong_natCast (n : ℕ) (h : n < 2 ^ 31) : toLong (n : ℚ) = n := by
  have h0 : (0 : ℚ) ≤ (n : ℚ) := Nat.cast_nonneg n
  have h1 : ((n : ℤ)) % 2 ^ 32 = n := by
    apply Int.emod_eq_of_lt (Int.natCast_nonneg n)
    have : (n : ℤ) < 2 ^ 31 := by exact_mod_cast h
    linarith
  have h2 : (n : ℤ) < 2 ^ 31 := by exact_mod_cast h
  simp only [toLong, h0, if_true, Int.floor_natCast, h1, h2]

theorem effectiveDelay_natCast (n : ℕ) (h : n < 2 ^ 31) : effectiveDelay (n : ℚ) = n := by
  unfold effectiveDelay
  rw [toLong_natCast n h]
  simp

theorem effectiveDelay_5000 : effectiveDelay 5000 = 5000 := by
  have h := effectiveDelay_natCast 5000 (by norm_num)
  norm_num at h
  exact h

theorem effectiveDelay_1500 : effectiveDelay 1500 = 1500 := by
  have h := effectiveDelay_natCast 1500 (by norm_num)
  norm_num at h
  exact h

theorem effectiveDelay_300 : effectiveDelay 300 = 300 := by
  have h := effectiveDelay_natCast 300 (by norm_num)
  norm_num at h
  exact h

theorem effectiveDelay_nonneg (delay : ℚ) : 0 ≤ effectiveDelay delay :=
  le_max_right _ _

theorem nextDue_eq_none {κ : Type} (ts : Timers κ) (now : ℚ)
    (h : ∀ t ∈ ts.pending, now < t.due) : ts.nextDue now = none := by
  unfold Timers.nextDue
  rw [List.find?_eq_none]
  intro t ht
  simpa using h t ht

theorem throttle_runTimers_of_none_due {α σ : Type} (fuel : Nat) (now : ℚ)
    (st : ThrottleState α σ) (h : ∀ t ∈ st.timers.pending, now < t.due) :
    ThrottleState.runTimers fuel now st = st := by
  cases fuel with
  | zero => rfl
  | succ n => simp only [ThrottleState.runTimers, nextDue_eq_none _ _ h]

theorem throttle_advance_of_none_due {α σ : Type} (now : ℚ) (st : ThrottleState α σ)
    (h : ∀ t ∈ st.timers.pending, now < t.due) : ThrottleState.advance now st = st :=
  throttle_runTimers_of_none_due _ now st h

theorem throttle_runTimers_invocations {α σ : Type} (fuel : Nat) (now : ℚ)
    (st : ThrottleState α σ) :
    (ThrottleState.runTimers fuel now st).invocations = st.invocations := by
  induction fuel generalizing st with
  | zero => rfl
  | succ n ih =>
    simp only [ThrottleState.runTimers]
    split
    · rfl
    · rw [ih]

theorem throttle_advance_invocations {α σ : Type} (now : ℚ) (st : ThrottleState α σ) :
    (ThrottleState.advance now st).invocations = st.invocations :=
  throttle_runTimers_invocations _ now st

theorem throttled_of_inThrottle {α σ : Type} (func : α → σ → Outcome σ) (limit now : ℚ)
    (args : α) (st : ThrottleState α σ) (h : st.inThrottle = true) :
    throttled func limit now args st = st := by
  simp [throttled, h]

/-- The state of the closure right after a leading call that returned. -/
theorem throttled_fresh {α σ : Type} (func : α → σ → Outcome σ) (limit : ℚ) (world w : σ)
    (first : ℚ × α) (hret : func first.2 world = .returned w) :
    throttled func limit first.1 first.2
        (ThrottleState.advance first.1 (ThrottleState.fresh world)) =
      { inThrottle := true,
        timers := ⟨2, [{ id := 1, due := first.1 + effectiveDelay limit, callback := () }]⟩,
        world := w, invocations := [first] } := by
  have hadv : ThrottleState.advance first.1 (ThrottleState.fresh world : ThrottleState α σ) =
      ThrottleState.fresh world := rfl
  rw [hadv]
  simp [throttled, ThrottleState.fresh, hret, setTimeout, Timers.empty]

theorem throttle_run_of_inThrottle {α σ : Type} (func : α → σ → Outcome σ) (limit : ℚ)
    (calls : List (ℚ × α)) (st : ThrottleState α σ) (hin : st.inThrottle = true)
    (h : ∀ c ∈ calls, ∀ t ∈ st.timers.pending, c.1 < t.due) :
    ThrottleState.run func limit calls st = st := by
  induction calls with
  | nil => rfl
  | cons c cs ih =>
    unfold ThrottleState.run at ih ⊢
    rw [List.foldl_cons, throttle_advance_of_none_due _ _ (h c (List.mem_cons_self c cs)),
      throttled_of_inThrottle _ _ _ _ _ hin]
    exact ih (fun d hd => h d (List.mem_cons_of_mem c hd))

theorem throttle_run_burst {α σ : Type} (func : α → σ → Outcome σ) (limit : ℚ) (world w : σ)
    (first : ℚ × α) (rest : List (ℚ × α))
    (hburst : ∀ c ∈ rest, c.1 < first.1 + effectiveDelay limit)
    (hret : func first.2 world = .returned w) :
    ThrottleState.run func limit (first :: rest) (ThrottleState.fresh world) =
      { inThrottle := true,
        timers := ⟨2, [{ id := 1, due := first.1 + effectiveDelay limit, callback := () }]⟩,
        world := w, invocations := [first] } := by
  have h := throttled_fresh func limit world w first hret
  unfold ThrottleState.run
  rw [List.foldl_cons, h]
  apply throttle_run_of_inThrottle func limit rest _ rfl
  intro c hc t ht
  simp only [List.mem_singleton] at ht
  subst ht
  exact hburst c hc

theorem debounce_runTimers_of_none_due {α σ : Type} (func : α → σ → Outcome σ)
    (fuel : Nat) (now : ℚ) (st : DebounceState α σ)
    (h : ∀ t ∈ st.timers.pending, now < t.due) :
    DebounceState.runTimers func fuel now st = st := by
  cases fuel with
  | zero => rfl
  | succ n => simp only [DebounceState.runTimers, nextDue_eq_none _ _ h]

theorem debounce_advance_of_none_due {α σ : Type} (func : α → σ → Outcome σ) (now : ℚ)
    (st : DebounceState α σ) (h : ∀ t ∈ st.timers.pending, now < t.due) :
    DebounceState.advance func now st = st :=
  debounce_runTimers_of_none_due func _ now st h

theorem debouncePending_first {α σ : Type} (func : α → σ → Outcome σ) (wait : ℚ)
    (hwait : effectiveDelay wait = wait) (world : σ) (c : ℚ × α) :
    DebouncePending wait world c
      (executedFunction wait c.1 c.2
        (DebounceState.advance func c.1 (DebounceState.fresh world))) := by
  have hadv : DebounceState.advance func c.1 (DebounceState.fresh world : DebounceState α σ) =
      DebounceState.fresh world := rfl
  rw [hadv]
  refine ⟨rfl, rfl, 1, rfl, ?_⟩
  simp [executedFunction, DebounceState.fresh, clearTimeout, setTimeout, Timers.empty,
    hwait]

theorem debouncePending_step {α σ : Type} (func : α → σ → Outcome σ) (wait : ℚ)
    (hwait : effectiveDelay wait = wait) (world : σ) (p c : ℚ × α) (st : DebounceState α σ)
    (h : DebouncePending wait world p st) (hc : c.1 < p.1 + wait) :
    DebouncePending wait world c
      (executedFunction wait c.1 c.2 (DebounceState.advance func c.1 st)) := by
  obtain ⟨hinv, hworld, id, hto, hpend⟩ := h
  have hadv : DebounceState.advance func c.1 st = st := by
    apply debounce_advance_of_none_due
    intro t ht
    rw [hpend, List.mem_singleton] at ht
    subst ht
    exact hc
  rw [hadv]
  refine ⟨hinv, hworld, st.timers.nextId, ?_, ?_⟩
  · simp [executedFunction, clearTimeout, setTimeout, hto]
  · simp [executedFunction, clearTimeout, setTimeout, hto, hpend, hwait]

theorem debouncePending_run {α σ : Type} (func : α → σ → Outcome σ) (wait : ℚ)
    (hwait : effectiveDelay wait = wait) (world : σ) (calls : List (ℚ × α)) (p : ℚ × α)
    (st : DebounceState α σ) (h : DebouncePending wait world p st)
    (hburst : List.Chain (fun c d => d.1 < c.1 + wait) p calls) :
    DebouncePending wait world ((p :: calls).getLast (List.cons_ne_nil _ _))
      (DebounceState.run func wait calls st) := by
  induction calls generalizing p st with
  | nil => exact h
  | cons c cs ih =>
    rw [List.chain_cons] at hburst
    have hstep := debouncePending_step func wait hwait world p c st h hburst.1
    have := ih c _ hstep hburst.2
    rw [List.getLast_cons (List.cons_ne_nil _ _)]
    exact this

theorem debouncePending_advance_before {α σ : Type} (func : α → σ → Outcome σ) (wait : ℚ)
    (world : σ) (c : ℚ × α) (st : DebounceState α σ) (h : DebouncePending wait world c st)
    (now : ℚ) (hnow : now < c.1 + wait) : DebounceState.advance func now st = st := by
  obtain ⟨_, _, id, _, hpend⟩ := h
  apply debounce_advance_of_none_due
  intro t ht
  rw [hpend, List.mem_singleton] at ht
  subst ht
  exact hnow

theorem debouncePending_advance_after {α σ : Type} (func : α → σ → Outcome σ) (wait : ℚ)
    (world : σ) (c : ℚ × α) (st : DebounceState α σ) (h : DebouncePending wait world c st)
    (now : ℚ) (hnow : c.1 + wait ≤ now) :
    (DebounceState.advance func now st).invocations = [(c.1 + wait, c.2)] ∧
      (DebounceState.advance func now st).timers.pending = [] := by
  obtain ⟨hinv, _, id, hto, hpend⟩ := h
  have hnext : st.timers.nextDue now = some { id := id, due := c.1 + wait, callback := c.2 } := by
    simp [Timers.nextDue, hpend, hnow]
  simp [DebounceState.advance, hpend, DebounceState.runTimers, hnext, later, Timers.remove,
    clearTimeout, hto, hinv]

/-! ## The e-mail pattern -/

theorem matchPieces_nil (s : List Char) : matchPieces s [] = true ↔ s = [] := by
  cases s <;> simp [matchPieces]

theorem matchPieces_one (a : Atom) (rest : Pattern) (s : List Char) :
    matchPieces s (.one a :: rest) = true ↔
      ∃ c y, s = c :: y ∧ a.accepts c = true ∧ matchPieces y rest = true := by
  cases s with
  | nil => simp [matchPieces]
  | cons c cs =>
    simp only [matchPieces, Bool.and_eq_true, List.cons.injEq]
    constructor
    · rintro ⟨h1, h2⟩
      exact ⟨c, cs, ⟨rfl, rfl⟩, h1, h2⟩
    · rintro ⟨d, y, ⟨rfl, rfl⟩, h1, h2⟩
      exact ⟨h1, h2⟩

theorem matchPieces_plus (a : Atom) (rest : Pattern) (s : List Char) :
    matchPieces s (.plus a :: rest) = true ↔
      ∃ x y, s = x ++ y ∧ x ≠ [] ∧ (∀ c ∈ x, a.accepts c = true) ∧
        matchPieces y rest = true := by
  induction s with
  | nil =>
    simp only [matchPieces, Bool.false_eq_true, false_iff]
    rintro ⟨x, y, hxy, hx, _⟩
    cases x with
    | nil => exact hx rfl
    | cons _ _ => cases hxy
  | cons c cs ih =>
    simp only [matchPieces, Bool.and_eq_true, Bool.or_eq_true]
    constructor
    · rintro ⟨hc, h | h⟩
      · obtain ⟨x, y, hxy, _, hall, hy⟩ := ih.mp h
        refine ⟨c :: x, y, by rw [hxy]; rfl, List.cons_ne_nil _ _, ?_, hy⟩
        intro d hd
        rcases List.mem_cons.mp hd with rfl | hd
        · exact hc
        · exact hall d hd
      · exact ⟨[c], cs, rfl, List.cons_ne_nil _ _, by simpa using hc, h⟩
    · rintro ⟨x, y, hxy, hx, hall, hy⟩
      cases x with
      | nil => exact absurd rfl hx
      | cons d x' =>
        rw [List.cons_append, List.cons.injEq] at hxy
        obtain ⟨rfl, hcs⟩ := hxy
        refine ⟨hall c (List.mem_cons_self _ _), ?_⟩
        cases x' with
        | nil =>
          right
          rw [hcs]; exact hy
        | cons d' x'' =>
          left
          exact ih.mpr ⟨d' :: x'', y, hcs, List.cons_ne_nil _ _,
            fun e he => hall e (List.mem_cons_of_mem _ he), hy⟩

theorem notSpaceOrAt_accepts (c : Char) :
    notSpaceOrAt.accepts c = true ↔ isWhiteSpace c = false ∧ c ≠ '@' := by
  simp [notSpaceOrAt, Atom.accepts, ClassItem.covers]

theorem literal_accepts (d c : Char) : (Atom.literal d).accepts c = true ↔ c = d := by
  simp [Atom.accepts]

/-- The pattern on character lists: three non-empty runs of characters that
are neither white space nor `@`, separated by `@` and by a dot. -/
theorem matchPieces_emailRegex (s : List Char) :
    matchPieces s emailRegex = true ↔
      ∃ a b c : List Char, s = a ++ '@' :: (b ++ '.' :: c) ∧
        (a ≠ [] ∧ ∀ ch ∈ a, isWhiteSpace ch = false ∧ ch ≠ '@') ∧
        (b ≠ [] ∧ ∀ ch ∈ b, isWhiteSpace ch = false ∧ ch ≠ '@') ∧
        (c ≠ [] ∧ ∀ ch ∈ c, isWhiteSpace ch = false ∧ ch ≠ '@') := by
  unfold emailRegex
  simp only [matchPieces_plus, matchPieces_one, matchPieces_nil, notSpaceOrAt_accepts,
    literal_accepts]
  constructor
  · rintro ⟨a, y1, rfl, ha, hall, c1, y2, rfl, rfl, b, y3, rfl, hb, hbll, c2, y4, rfl, rfl,
      c, y5, rfl, hc, hcll, rfl⟩
    exact ⟨a, b, c, by simp, ⟨ha, hall⟩, ⟨hb, hbll⟩, ⟨hc, hcll⟩⟩
  · rintro ⟨a, b, c, rfl, ⟨ha, hall⟩, ⟨hb, hbll⟩, ⟨hc, hcll⟩⟩
    exact ⟨a, _, rfl, ha, hall, '@', _, rfl, rfl, b, _, rfl, hb, hbll, '.', _, rfl, rfl,
      c, [], by simp, hc, hcll, rfl⟩

theorem string_ne_empty_iff (s : String) : s ≠ "" ↔ s.data ≠ [] := by
  constructor
  · intro h hd
    apply h
    exact String.ext hd
  · intro h hs
    apply h
    rw [hs]

theorem emailRegex_test_iff (e : String) :
    emailRegex.test e = true ↔
      ∃ a b c : String, e = a ++ "@" ++ b ++ "." ++ c ∧
        IsEmailPart a ∧ IsEmailPart b ∧ IsEmailPart c := by
  unfold Pattern.test
  rw [matchPieces_emailRegex]
  simp only [IsEmailPart, string_ne_empty_iff]
  constructor
  · rintro ⟨a, b, c, hs, ha, hb, hc⟩
    refine ⟨⟨a⟩, ⟨b⟩, ⟨c⟩, ?_, ha, hb, hc⟩
    apply String.ext
    simp [hs]
  · rintro ⟨a, b, c, hs, ha, hb, hc⟩
    refine ⟨a.data, b.data, c.data, ?_, ha, hb, hc⟩
    rw [hs]
    simp

theorem emailRegex_test_data {e : String} (h : emailRegex.test e = true) :
    ∃ a b c : List Char, e.data = a ++ '@' :: (b ++ '.' :: c) ∧
      (a ≠ [] ∧ ∀ ch ∈ a, isWhiteSpace ch = false ∧ ch ≠ '@') ∧
      (b ≠ [] ∧ ∀ ch ∈ b, isWhiteSpace ch = false ∧ ch ≠ '@') ∧
      (c ≠ [] ∧ ∀ ch ∈ c, isWhiteSpace ch = false ∧ ch ≠ '@') :=
  (matchPieces_emailRegex e.data).mp h

theorem emailRegex_rejects_without_at (e : String) (h : '@' ∉ e.data) :
    emailRegex.test e = false := by
  rw [Bool.eq_false_iff]
  intro ht
  obtain ⟨a, b, c, hs, _⟩ := emailRegex_test_data ht
  apply h
  rw [hs]
  simp

theorem emailRegex_count_at {e : String} (h : emailRegex.test e = true) :
    e.data.count '@' = 1 := by
  obtain ⟨a, b, c, hs, ⟨_, ha⟩, ⟨_, hb⟩, ⟨_, hc⟩⟩ := emailRegex_test_data h
  have h0 : ∀ l : List Char, (∀ ch ∈ l, isWhiteSpace ch = false ∧ ch ≠ '@') →
      l.count '@' = 0 := by
    intro l hl
    rw [List.count_eq_zero]
    exact fun hm => (hl _ hm).2 rfl
  rw [hs, List.count_append, List.count_cons, List.count_append, List.count_cons, h0 a ha,
    h0 b hb, h0 c hc]
  decide

theorem emailRegex_rejects_white_space (e : String)
    (h : ∃ ch ∈ e.data, isWhiteSpace ch = true) : emailRegex.test e = false := by
  rw [Bool.eq_false_iff]
  intro ht
  obtain ⟨a, b, c, hs, ⟨_, ha⟩, ⟨_, hb⟩, ⟨_, hc⟩⟩ := emailRegex_test_data ht
  obtain ⟨ch, hch, hw⟩ := h
  rw [hs] at hch
  simp only [List.mem_append, List.mem_cons] at hch
  rcases hch with hch | rfl | hch | rfl | hch
  · rw [(ha ch hch).1] at hw; cases hw
  · exact absurd hw (by decide)
  · rw [(hb ch hch).1] at hw; cases hw
  · exact absurd hw (by decide)
  · rw [(hc ch hch).1] at hw; cases hw

/-! ## `trim` and `validateForm` -/

theorem exists_mem_dropWhile_iff (p : Char → Bool) (l : List Char) :
    (∃ c ∈ l.dropWhile p, p c = false) ↔ ∃ c ∈ l, p c = false := by
  constructor
  · rintro ⟨c, hc, hp⟩
    exact ⟨c, (List.dropWhile_suffix p).subset hc, hp⟩
  · rintro ⟨c, hc, hp⟩
    rw [← List.takeWhile_append_dropWhile p l, List.mem_append] at hc
    rcases hc with hc | hc
    · rw [List.mem_takeWhile_imp hc] at hp; cases hp
    · exact ⟨c, hc, hp⟩

theorem dropWhile_ne_nil_iff (p : Char → Bool) (l : List Char) :
    l.dropWhile p ≠ [] ↔ ∃ c ∈ l, p c = false := by
  rw [Ne, List.dropWhile_eq_nil_iff]
  simp

/-- A string is non-empty after trimming exactly when it has a character that
is not white space. -/
theorem trim_ne_empty_iff (s : String) :
    trim s ≠ "" ↔ ∃ c ∈ s.data, isWhiteSpace c = false := by
  rw [string_ne_empty_iff]
  unfold trim
  simp only [ne_eq, List.reverse_eq_nil_iff]
  rw [← ne_eq, dropWhile_ne_nil_iff]
  simp only [List.mem_reverse]
  exact exists_mem_dropWhile_iff isWhiteSpace s.data

theorem trim_ne_empty_of_test {e : String} (h : emailRegex.test e = true) : trim e ≠ "" := by
  rw [trim_ne_empty_iff]
  obtain ⟨a, b, c, hs, ⟨ha, hall⟩, _⟩ := emailRegex_test_data h
  cases a with
  | nil => exact absurd rfl ha
  | cons x a' =>
    exact ⟨x, by rw [hs]; simp, (hall x (List.mem_cons_self _ _)).1⟩

theorem validateForm_eq_true_iff (data : FormData) :
    validateForm data = true ↔
      trim data.name ≠ "" ∧ trim data.message ≠ "" ∧ emailRegex.test data.email = true := by
  unfold validateForm
  constructor
  · intro h
    split at h
    · cases h
    · rename_i h1
      split at h
      · cases h
      · rename_i h2
        simp only [Bool.or_eq_true, beq_iff_eq, not_or] at h1
        simp only [Bool.not_eq_true', Bool.not_eq_false] at h2
        exact ⟨h1.1.1, h1.2, h2⟩
  · rintro ⟨hn, hm, he⟩
    have hem := trim_ne_empty_of_test he
    have h1 : ¬ ((trim data.name == "" || trim data.email == "" || trim data.message == "")
        = true) := by
      simp only [Bool.or_eq_true, beq_iff_eq, not_or]
      exact ⟨⟨hn, hem⟩, hm⟩
    rw [if_neg h1]
    simp [he]

/-! ## The contact form handlers -/

theorem className_error : "notification notification-" ++ "error" = "notification notification-error" := by
  decide

theorem className_success :
    "notification notification-" ++ "success" = "notification notification-success" := by
  decide

theorem showNotification_notifications (message type : String) (now : ℚ) (st : PageState) :
    ∃ n : Notification,
      (showNotification message type now st).notifications = st.notifications.drop 1 ++ [n] ∧
        n.className = "notification notification-" ++ type ∧ n.message = message ∧
        n.key = st.nextKey :=
  ⟨_, rfl, rfl, rfl, rfl⟩

theorem showNotification_controls (message type : String) (now : ℚ) (st : PageState) :
    (showNotification message type now st).controls = st.controls := rfl

theorem showNotification_submitBtn (message type : String) (now : ℚ) (st : PageState) :
    (showNotification message type now st).submitBtn = st.submitBtn := rfl

theorem showNotification_newsletterEmail (message type : String) (now : ℚ) (st : PageState) :
    (showNotification message type now st).newsletterEmail = st.newsletterEmail := rfl

theorem showNotification_pending (message type : String) (now : ℚ) (st : PageState) :
    (showNotification message type now st).timers.pending =
      st.timers.pending ++
        [{ id := st.timers.nextId, due := now + 5000,
           callback := PageCallback.autoRemove st.nextKey }] := by
  simp [showNotification, setTimeout, effectiveDelay_5000]

theorem submitHandler_of_invalid (now : ℚ) (st : PageState)
    (h : validateForm (readFormData st) = false) :
    submitHandler now st =
      .returned (showNotification "Mohon lengkapi semua field yang wajib diisi." "error" now st) := by
  simp [submitHandler, h]

theorem submitHandler_of_no_button (now : ℚ) (st : PageState)
    (h : validateForm (readFormData st) = true) (hb : st.submitBtn = none) :
    submitHandler now st = .threw st := by
  simp [submitHandler, h, hb]

theorem submitHandler_of_valid (now : ℚ) (st : PageState) (submitBtn : Button)
    (h : validateForm (readFormData st) = true) (hb : st.submitBtn = some submitBtn) :
    submitHandler now st =
      .returned
        { st with
          submitBtn := some { innerHTML := loadingLabel, disabled := true }
          timers :=
            { nextId := st.timers.nextId + 1
              pending := st.timers.pending ++
                [{ id := st.timers.nextId, due := now + 1500,
                   callback := PageCallback.submitted submitBtn.innerHTML }] } } := by
  simp [submitHandler, h, hb, setTimeout, effectiveDelay_1500]

theorem newsletterHandler_returns (now : ℚ) (st : PageState) :
    ∃ s, newsletterHandler now st = .returned s := by
  unfold newsletterHandler
  simp only
  split
  · exact ⟨_, rfl⟩
  · rename_i hne
    split
    · exact ⟨_, rfl⟩
    · rw [showNotification_newsletterEmail]
      rcases he : st.newsletterEmail with _ | e
      · rw [he] at hne
        exact absurd (by decide) hne
      · exact ⟨_, rfl⟩

theorem newsletterHandler_of_no_input (now : ℚ) (st : PageState)
    (h : st.newsletterEmail = none) :
    newsletterHandler now st =
      .returned (showNotification "Mohon masukkan alamat email Anda." "error" now st) := by
  unfold newsletterHandler
  rw [h]
  have : (trim (Option.getD none "") == "") = true := by decide
  simp only [this, if_true]

theorem readFormData_congr {s s' : PageState} (h : s.controls = s'.controls) :
    readFormData s = readFormData s' := by
  simp [readFormData, fieldValue, h]

theorem fireTimer_submitted_controls (id : Nat) (due : ℚ) (originalText : String)
    (st : PageState) :
    (fireTimer { id := id, due := due, callback := PageCallback.submitted originalText }
      st).controls = (formReset st).controls := rfl

theorem fireTimer_submitted_submitBtn (id : Nat) (due : ℚ) (originalText : String)
    (st : PageState) (b : Button) (hb : st.submitBtn = some b) :
    (fireTimer { id := id, due := due, callback := PageCallback.submitted originalText }
      st).submitBtn = some { innerHTML := originalText, disabled := false } := by
  simp [fireTimer, runCallback, formReset, showNotification, hb]

theorem fireTimer_submitted_notifications (id : Nat) (due : ℚ) (originalText : String)
    (st : PageState) :
    ∃ n : Notification,
      (fireTimer { id := id, due := due, callback := PageCallback.submitted originalText }
        st).notifications = st.notifications.drop 1 ++ [n] ∧
        n.className = "notification notification-success" :=
  ⟨_, rfl, className_success⟩

theorem formReset_value (st : PageState) :
    ∀ c ∈ (formReset st).controls, c.inForm = true → c.value = c.defaultValue := by
  intro c hc hin
  simp only [formReset, List.mem_map] at hc
  obtain ⟨c0, _, rfl⟩ := hc
  by_cases h0 : c0.inForm = true
  · simp [h0]
  · simp only [h0] at hin
    simp at hin
    exact absurd hin h0

theorem formReset_defaultValue (st : PageState) :
    ∀ c ∈ (formReset st).controls, ∃ c0 ∈ st.controls,
      c.inForm = c0.inForm ∧ c.defaultValue = c0.defaultValue ∧ c.id = c0.id := by
  intro c hc
  simp only [formReset, List.mem_map] at hc
  obtain ⟨c0, hc0, rfl⟩ := hc
  refine ⟨c0, hc0, ?_⟩
  by_cases h0 : c0.inForm = true <;> simp [h0]

/-! ## Properties of `updateActiveNavLink` -/

theorem foldl_sectionStep_of_no_match (dom : DOMRefs) (v : View) (l : List Nat)
    (acc : Outcome Document) (h : ∀ s ∈ l, ¬ InActiveRange dom v s) :
    l.foldl (sectionStep dom v) acc = acc := by
  induction l generalizing acc with
  | nil => rfl
  | cons a l ih =>
    have ha : ¬ inActiveRange dom v a = true := by
      rw [inActiveRange_iff]; exact h a (List.mem_cons_self a l)
    have hstep : sectionStep dom v acc a = acc := by
      cases acc with
      | threw d => rfl
      | returned d => simp only [sectionStep, ha]; rfl
    rw [List.foldl_cons, hstep]
    exact ih acc (fun s hs => h s (List.mem_cons_of_mem a hs))

theorem updateActiveNavLinkOutcome_of_no_match (dom : DOMRefs) (v : View) (doc : Document)
    (h : ∀ s ∈ dom.sections, ¬ InActiveRange dom v s) :
    updateActiveNavLinkOutcome dom v doc = .returned doc :=
  foldl_sectionStep_of_no_match dom v dom.sections (.returned doc) h

theorem updateActiveNavLink_of_no_match (dom : DOMRefs) (v : View) (doc : Document)
    (h : ∀ s ∈ dom.sections, ¬ InActiveRange dom v s) :
    updateActiveNavLink dom v doc = doc := by
  unfold updateActiveNavLink
  rw [updateActiveNavLinkOutcome_of_no_match dom v doc h]
  rfl

/-- When one section only is in range, the call ends as the body of the `if`
for that section does. -/
theorem updateActiveNavLinkOutcome_of_only (dom : DOMRefs) (v : View) (doc : Document)
    (pre post : List Nat) (sec : Nat) (hsections : dom.sections = pre ++ sec :: post)
    (hpre : ∀ s ∈ pre, ¬ InActiveRange dom v s) (hsec : InActiveRange dom v sec)
    (hpost : ∀ s ∈ post, ¬ InActiveRange dom v s) :
    updateActiveNavLinkOutcome dom v doc = activateSection dom sec doc := by
  unfold updateActiveNavLinkOutcome
  rw [hsections, List.foldl_append, foldl_sectionStep_of_no_match dom v pre _ hpre,
    List.foldl_cons]
  have hstep : sectionStep dom v (.returned doc) sec = activateSection dom sec doc := by
    simp only [sectionStep, (inActiveRange_iff dom v sec).mpr hsec, if_true]
  rw [hstep]
  exact foldl_sectionStep_of_no_match dom v post _ hpost

theorem DOM_pageTwoActive :
    DOM pageTwoActive = ⟨some 0, [1, 2], some 5, none, [3, 4], [3, 4]⟩ := by decide

theorem DOM_pageAboutActive :
    DOM pageAboutActive = ⟨some 0, [1, 2], some 5, none, [3, 4], [3, 4]⟩ := by decide

theorem sampleView_no_match_of_lt {s : ℚ} (hs : s < 140) :
    ∀ el ∈ (DOM pageTwoActive).sections, ¬ InActiveRange (DOM pageTwoActive) (sampleView s) el := by
  rw [DOM_pageTwoActive]
  intro el hel
  simp only [List.mem_cons, List.mem_singleton, List.not_mem_nil, or_false] at hel
  rcases hel with rfl | rfl <;>
    · simp only [InActiveRange, navbarHeight, sampleView]
      norm_num
      intro h
      linarith

/-- Claim C1 as stated fails: on the sample page whose markup marks both links
`active`, a call of `updateActiveNavLink` at scroll offset 0, which lies in no
section's range, leaves two navigation links active. -/
theorem updateActiveNavLink_keeps_two_active :
    ¬ (activeLinks (DOM pageTwoActive)
        (updateActiveNavLink (DOM pageTwoActive) (sampleView 0) pageTwoActive)).length ≤ 1 := by
  rw [updateActiveNavLink_of_no_match _ _ _ (sampleView_no_match_of_lt (by norm_num))]
  decide

theorem sampleView_about_in_range {s : ℚ} (h1 : 640 ≤ s) (h2 : s < 1140) :
    InActiveRange (DOM pageTwoActive) (sampleView s) 4 := by
  rw [DOM_pageTwoActive]
  simp only [InActiveRange, navbarHeight, sampleView]
  norm_num
  constructor <;> linarith

theorem activeLinks_activateSection_le_one (doc : Document) (el : Nat) :
    (activeLinks (DOM doc) (activateSection (DOM doc) el doc).world).length ≤ 1 := by
  unfold activeLinks
  rcases hp : pastedSelector (getAttributeId doc el) with _ | value
  · apply length_filter_le_one_of_nodup (nodup_querySelectorAll _ _) _ 0
    intro i hi hi'
    rw [hasClass_activateSection el hi, hp] at hi'
    obtain ⟨_, h, _⟩ := hi'
    cases h
  · rcases hq : querySelector (selNavLinkHref value) doc with _ | a
    · apply length_filter_le_one_of_nodup (nodup_querySelectorAll _ _) _ 0
      intro i hi hi'
      rw [hasClass_activateSection el hi, hp] at hi'
      obtain ⟨_, h, h'⟩ := hi'
      cases h
      rw [hq] at h'
      cases h'
    · apply length_filter_le_one_of_nodup (nodup_querySelectorAll _ _) _ a
      intro i hi hi'
      rw [hasClass_activateSection el hi, hp] at hi'
      obtain ⟨_, h, h'⟩ := hi'
      cases h
      rw [hq] at h'
      exact (Option.some.inj h').symm

theorem activeLinks_clearActive (dom : DOMRefs) (doc : Document) :
    activeLinks dom (clearActive dom doc) = [] := by
  unfold activeLinks
  rw [List.filter_eq_nil_iff]
  intro i hi
  rw [hasClass_clearActive_active doc hi]
  simp

/-- Claim C1, amended: for every scroll offset, section layout, navbar height
and prior marking, if some section's active range contains the scroll offset,
or at most one navigation link carried `active` before the call, then after one
call of `updateActiveNavLink` at most one navigation link carries `active`. -/
theorem updateActiveNavLink_at_most_one_active (doc : Document) (v : View)
    (h : (∃ s ∈ (DOM doc).sections, InActiveRange (DOM doc) v s) ∨
      (activeLinks (DOM doc) doc).length ≤ 1) :
    (activeLinks (DOM doc) (updateActiveNavLink (DOM doc) v doc)).length ≤ 1 := by
  rw [updateActiveNavLink_eq _ v doc (linksCover_DOM doc)]
  rcases hl : ((DOM doc).sections.filter (inActiveRange (DOM doc) v)).getLast? with _ | el
  · rcases h with ⟨s, hs, hr⟩ | h
    · exact absurd hr ((exists_inActiveRange_iff _ v).mp hl s hs)
    · exact h
  · simp only
    split
    · exact activeLinks_activateSection_le_one doc el
    · rw [activeLinks_clearActive]
      exact Nat.zero_le 1

/-- Instance of claim C1 (amended) on the sample page with both links marked,
scrolled to offset 700 inside the range `[640, 1140)` of section `about`. -/
theorem updateActiveNavLink_at_most_one_active_witness :
    (∃ s ∈ (DOM pageTwoActive).sections,
        InActiveRange (DOM pageTwoActive) (sampleView 700) s) ∧
      (activeLinks (DOM pageTwoActive)
        (updateActiveNavLink (DOM pageTwoActive) (sampleView 700) pageTwoActive)).length ≤ 1 :=
  have hex : ∃ s ∈ (DOM pageTwoActive).sections,
      InActiveRange (DOM pageTwoActive) (sampleView 700) s :=
    ⟨4, by decide, sampleView_about_in_range (by norm_num) (by norm_num)⟩
  ⟨hex, updateActiveNavLink_at_most_one_active pageTwoActive (sampleView 700) (Or.inl hex)⟩

theorem sampleView_no_match_of_ge {s : ℚ} (hs : 1140 ≤ s) :
    ∀ el ∈ (DOM pageAboutActive).sections,
      ¬ InActiveRange (DOM pageAboutActive) (sampleView s) el := by
  rw [DOM_pageAboutActive]
  intro el hel
  simp only [List.mem_cons, List.mem_singleton, List.not_mem_nil, or_false] at hel
  rcases hel with rfl | rfl <;>
    · simp only [InActiveRange, navbarHeight, sampleView]
      norm_num
      intro _
      linarith

/-- Claim C2 as stated fails: on the sample page with the link to `#about`
marked, a call at scroll offset 1200, which lies in no section's active range,
leaves that link marked `active`. -/
theorem updateActiveNavLink_keeps_marking_outside_ranges :
    (∀ el ∈ (DOM pageAboutActive).sections,
        ¬ InActiveRange (DOM pageAboutActive) (sampleView 1200) el) ∧
      hasClass (updateActiveNavLink (DOM pageAboutActive) (sampleView 1200) pageAboutActive)
        2 "active" = true := by
  refine ⟨sampleView_no_match_of_ge (by norm_num), ?_⟩
  rw [updateActiveNavLink_of_no_match _ _ _ (sampleView_no_match_of_ge (by norm_num))]
  decide

/-- Claim C2, amended: for every scroll offset that lies in no section's active
range, `updateActiveNavLink` changes nothing: every navigation link keeps the
marking it had before the call (the marking of the previous tick is kept, not
cleared). -/
theorem updateActiveNavLink_unchanged_outside_ranges (doc : Document) (v : View)
    (h : ∀ el ∈ (DOM doc).sections, ¬ InActiveRange (DOM doc) v el) :
    updateActiveNavLink (DOM doc) v doc = doc ∧
      ∀ link ∈ (DOM doc).navLinks,
        hasClass (updateActiveNavLink (DOM doc) v doc) link "active" =
          hasClass doc link "active" := by
  have := updateActiveNavLink_of_no_match (DOM doc) v doc h
  exact ⟨this, fun link _ => by rw [this]⟩

/-- Instance of claim C2 (amended) on the sample page at scroll offset 1200. -/
theorem updateActiveNavLink_unchanged_outside_ranges_witness :
    (∀ el ∈ (DOM pageAboutActive).sections,
        ¬ InActiveRange (DOM pageAboutActive) (sampleView 1200) el) ∧
      updateActiveNavLink (DOM pageAboutActive) (sampleView 1200) pageAboutActive =
        pageAboutActive :=
  ⟨sampleView_no_match_of_ge (by norm_num),
    (updateActiveNavLink_unchanged_outside_ranges pageAboutActive (sampleView 1200)
      (sampleView_no_match_of_ge (by norm_num))).1⟩

theorem getAttributeId_of_idOf {doc : Document} {el : Nat} {sectionId : String}
    (h : idOf doc el = some sectionId) : getAttributeId doc el = sectionId := by
  unfold idOf at h
  unfold getAttributeId
  rcases hd : doc[el]? with _ | e
  · rw [hd] at h; cases h
  · rw [hd] at h; simp only at h ⊢; rw [h]; rfl

theorem getAttributeId_of_idOf_none {doc : Document} {el : Nat}
    (h : idOf doc el = none) : getAttributeId doc el = "null" := by
  unfold idOf at h
  unfold getAttributeId
  rcases hd : doc[el]? with _ | e
  · rfl
  · rw [hd] at h; simp only at h ⊢; rw [h]; rfl

theorem readable_of_safe {doc : Document} {el : Nat}
    (h : ∀ t, idOf doc el = some t → SelectorSafe t) : readable doc el = true := by
  unfold readable
  rcases hid : idOf doc el with _ | t
  · rw [getAttributeId_of_idOf_none hid]
    decide
  · rw [getAttributeId_of_idOf hid, pastedSelector_of_safe (h t hid)]
    rfl

theorem DOM_pageWithId_quoteId :
    DOM (pageWithId quoteId) = ⟨some 0, [1, 2], some 5, none, [3, 4], [3, 4]⟩ := by
  decide

theorem DOM_pageWithId_backslashId :
    DOM (pageWithId backslashId) = ⟨some 0, [1, 2], some 5, none, [3, 4], [3, 4]⟩ := by
  decide

theorem sampleView_only_second {sectionId : String}
    (hdom : DOM (pageWithId sectionId) = ⟨some 0, [1, 2], some 5, none, [3, 4], [3, 4]⟩) :
    (∀ s ∈ [3], ¬ InActiveRange (DOM (pageWithId sectionId)) (sampleView 700) s) ∧
      InActiveRange (DOM (pageWithId sectionId)) (sampleView 700) 4 := by
  rw [hdom]
  constructor
  · intro s hs
    rw [List.mem_singleton] at hs
    subst hs
    simp only [InActiveRange, navbarHeight, sampleView]
    norm_num
  · simp only [InActiveRange, navbarHeight, sampleView]
    norm_num

theorem activateSection_quoteId :
    activateSection (DOM (pageWithId quoteId)) 4 (pageWithId quoteId) =
      .threw (pageWithIdCleared quoteId) := by
  decide

theorem activateSection_backslashId :
    activateSection (DOM (pageWithId backslashId)) 4 (pageWithId backslashId) =
      .returned (pageWithIdCleared backslashId) := by
  decide

/-- Claim C3 as stated fails for ids that do not survive being pasted into the
selector text.  On the sample page scrolled to offset 700, only the second
section is in range.  When its id is `a"b`, the link whose `href` is `#` plus
that id is the first such link, yet the call clears both links and then throws,
the pasted text being no selector.  When its id is `a`, backslash, `b`, the
call returns with both links cleared, the pasted selector asking for another
`href`.  In both cases the link to the section is not active afterwards. -/
theorem updateActiveNavLink_unsafe_id_not_marked :
    ((DOM (pageWithId quoteId)).sections = [3] ++ 4 :: [] ∧
      InActiveRange (DOM (pageWithId quoteId)) (sampleView 700) 4 ∧
      idOf (pageWithId quoteId) 4 = some quoteId ∧
      IsFirstLinkTo (pageWithId quoteId) ("#" ++ quoteId) 2 ∧
      updateActiveNavLinkOutcome (DOM (pageWithId quoteId)) (sampleView 700)
          (pageWithId quoteId) = .threw (pageWithIdCleared quoteId) ∧
      2 ∉ activeLinks (DOM (pageWithId quoteId))
        (updateActiveNavLink (DOM (pageWithId quoteId)) (sampleView 700)
          (pageWithId quoteId))) ∧
    ((DOM (pageWithId backslashId)).sections = [3] ++ 4 :: [] ∧
      InActiveRange (DOM (pageWithId backslashId)) (sampleView 700) 4 ∧
      idOf (pageWithId backslashId) 4 = some backslashId ∧
      IsFirstLinkTo (pageWithId backslashId) ("#" ++ backslashId) 2 ∧
      updateActiveNavLinkOutcome (DOM (pageWithId backslashId)) (sampleView 700)
          (pageWithId backslashId) = .returned (pageWithIdCleared backslashId) ∧
      2 ∉ activeLinks (DOM (pageWithId backslashId))
        (updateActiveNavLink (DOM (pageWithId backslashId)) (sampleView 700)
          (pageWithId backslashId))) := by
  have hq := updateActiveNavLinkOutcome_of_only (DOM (pageWithId quoteId)) (sampleView 700)
    (pageWithId quoteId) [3] [] 4 (by decide) (sampleView_only_second DOM_pageWithId_quoteId).1
    (sampleView_only_second DOM_pageWithId_quoteId).2 (fun _ h => absurd h (List.not_mem_nil _))
  have hb := updateActiveNavLinkOutcome_of_only (DOM (pageWithId backslashId)) (sampleView 700)
    (pageWithId backslashId) [3] [] 4 (by decide) (sampleView_only_second DOM_pageWithId_backslashId).1
    (sampleView_only_second DOM_pageWithId_backslashId).2 (fun _ h => absurd h (List.not_mem_nil _))
  rw [activateSection_quoteId] at hq
  rw [activateSection_backslashId] at hb
  refine ⟨⟨by decide, (sampleView_only_second DOM_pageWithId_quoteId).2, by decide, by unfold IsFirstLinkTo; decide, hq, ?_⟩,
    ⟨by decide, (sampleView_only_second DOM_pageWithId_backslashId).2, by decide, by unfold IsFirstLinkTo; decide, hb, ?_⟩⟩
  · unfold updateActiveNavLink
    rw [hq]
    decide
  · unfold updateActiveNavLink
    rw [hb]
    decide

/-- Claim C3, amended: for every scroll offset and every list of sections in
document order, if the section at `sec` is the last one whose active range
contains the scroll offset (`post`, the sections after it, do not contain it;
`pre`, the sections before it, may), and the id of every section whose range
contains the scroll offset has no quotation mark, backslash, line feed,
carriage return, form feed or NUL in it, then after `updateActiveNavLink` the
active navigation links are exactly the navigation link with `href` equal to
`#` plus the id of that section (the first such link in document order, the one
`querySelector` returns), and none if there is no such link.  Matching sections
in `pre` do not win. -/
theorem updateActiveNavLink_last_section_wins (doc : Document) (v : View)
    (pre post : List Nat) (sec : Nat) (sectionId : String)
    (hsections : (DOM doc).sections = pre ++ sec :: post)
    (hsec : InActiveRange (DOM doc) v sec)
    (hpost : ∀ s ∈ post, ¬ InActiveRange (DOM doc) v s)
    (hid : idOf doc sec = some sectionId)
    (hsafe : ∀ s ∈ (DOM doc).sections, InActiveRange (DOM doc) v s →
      ∀ t, idOf doc s = some t → SelectorSafe t) :
    ∀ link, link ∈ activeLinks (DOM doc) (updateActiveNavLink (DOM doc) v doc) ↔
      IsFirstLinkTo doc ("#" ++ sectionId) link := by
  intro link
  have hlast : ((DOM doc).sections.filter (inActiveRange (DOM doc) v)).getLast? = some sec :=
    getLast?_filter_of_split _ hsections ((inActiveRange_iff _ _ _).mpr hsec)
      (fun s hs => by rw [inActiveRange_iff]; exact hpost s hs)
  have hall : ((DOM doc).sections.filter (inActiveRange (DOM doc) v)).all (readable doc) =
      true := by
    rw [List.all_eq_true]
    intro s hs
    rw [List.mem_filter, inActiveRange_iff] at hs
    exact readable_of_safe (hsafe s hs.1 hs.2)
  have hsel : pastedSelector (getAttributeId doc sec) = some ("#" ++ sectionId) := by
    rw [getAttributeId_of_idOf hid]
    exact pastedSelector_of_safe
      (hsafe sec (by rw [hsections]; simp) hsec sectionId hid)
  rw [updateActiveNavLink_eq _ v doc (linksCover_DOM doc), hlast, isFirstLinkTo_iff]
  simp only [hall, if_true, activeLinks, List.mem_filter]
  constructor
  · rintro ⟨hl, ha⟩
    rw [hasClass_activateSection sec hl, hsel] at ha
    obtain ⟨value, hv, hq⟩ := ha
    cases hv
    exact hq
  · intro hq
    have hl : link ∈ (DOM doc).navLinks := ((isFirstLinkTo_iff doc _ link).mpr hq).1
    refine ⟨hl, ?_⟩
    rw [hasClass_activateSection sec hl, hsel]
    exact ⟨_, rfl, hq⟩

theorem overlapView_in_range (el : Nat) (hel : el = 3 ∨ el = 4) :
    InActiveRange (DOM pageTwoActive) (overlapView 700) el := by
  rw [DOM_pageTwoActive]
  rcases hel with rfl | rfl <;>
    · simp only [InActiveRange, navbarHeight, overlapView]
      norm_num

theorem pageTwoActive_ids_safe (v : View) :
    ∀ s ∈ (DOM pageTwoActive).sections, InActiveRange (DOM pageTwoActive) v s →
      ∀ t, idOf pageTwoActive s = some t → SelectorSafe t := by
  rw [DOM_pageTwoActive]
  intro s hs _ t ht
  simp only [List.mem_cons, List.mem_singleton, List.not_mem_nil, or_false] at hs
  rcases hs with rfl | rfl
  · have : t = "home" := (Option.some.inj ht).symm
    subst this
    decide
  · have : t = "about" := (Option.some.inj ht).symm
    subst this
    decide

/-- Instance of claim C3 (amended): at scroll offset 700 the ranges of both
sections of the overlapping layout contain the offset and both ids, `home` and
`about`, are plain words; the link to `#about`, the later section, is active
afterwards and the link to `#home` is not. -/
theorem updateActiveNavLink_last_section_wins_witness :
    (InActiveRange (DOM pageTwoActive) (overlapView 700) 3 ∧
        InActiveRange (DOM pageTwoActive) (overlapView 700) 4) ∧
      2 ∈ activeLinks (DOM pageTwoActive)
        (updateActiveNavLink (DOM pageTwoActive) (overlapView 700) pageTwoActive) ∧
      1 ∉ activeLinks (DOM pageTwoActive)
        (updateActiveNavLink (DOM pageTwoActive) (overlapView 700) pageTwoActive) :=
  have key := updateActiveNavLink_last_section_wins pageTwoActive (overlapView 700)
    [3] [] 4 "about" (by decide) (overlapView_in_range 4 (Or.inr rfl))
    (fun _ h => absurd h (List.not_mem_nil _)) (by decide)
    (pageTwoActive_ids_safe (overlapView 700))
  ⟨⟨overlapView_in_range 3 (Or.inl rfl), overlapView_in_range 4 (Or.inr rfl)⟩,
    (key 2).mpr (by unfold IsFirstLinkTo; decide),
    fun h => absurd ((key 1).mp h) (by unfold IsFirstLinkTo; decide)⟩

/-! ## Properties of the scroll pass -/

theorem hasClass_runPass_aos (dom : DOMRefs) (p : Pass) (v : View) (doc : Document) (el : Nat)
    (h : hasClass doc el "aos-animate" = true) :
    hasClass (runPass dom p v doc) el "aos-animate" = true := by
  cases p
  · simp only [runPass, scrollHandler]
    rw [hasClass_updateActiveNavLink_of_ne _ _ _ (by decide)]
    apply hasClass_handleScrollAnimations_mono
    rw [hasClass_handleBackToTop_of_ne _ _ _ (by decide),
      hasClass_handleNavbarScroll_of_ne _ _ _ (by decide)]
    exact h
  · exact hasClass_handleScrollAnimations_mono _ _ _ _ _ h
  · exact hasClass_handleScrollAnimations_mono _ _ _ _ _ h
  · simp only [runPass]
    rw [hasClass_updateActiveNavLink_of_ne _ _ _ (by decide),
      hasClass_handleBackToTop_of_ne _ _ _ (by decide),
      hasClass_handleNavbarScroll_of_ne _ _ _ (by decide)]
    exact h
  · exact hasClass_handleScrollAnimations_mono _ _ _ _ _ h

/-- Claim C4: for every element and every sequence of scroll, resize, load and
init passes, each at its own scroll position and layout, an element that
carries `aos-animate` carries it after the whole sequence, hence after every
later pass: the flag never goes from set to unset, and a pass over a flagged
element leaves it flagged. -/
theorem aos_animate_stays_set (dom : DOMRefs) (passes : List (Pass × View)) (doc : Document)
    (el : Nat) (h : hasClass doc el "aos-animate" = true) :
    hasClass (runPasses dom passes doc) el "aos-animate" = true := by
  unfold runPasses
  exact foldl_hasClass_mono _ _ _
    (fun d p hd => hasClass_runPass_aos dom p.1 p.2 d el hd) _ _ h

/-- Instance of claim C4: section `home`, revealed, stays revealed through a
scroll pass far below it (offset 5000), a resize pass, a load pass and a scroll
pass back at the top. -/
theorem aos_animate_stays_set_witness :
    hasClass pageRevealed 3 "aos-animate" = true ∧
      hasClass (runPasses (DOM pageRevealed)
        [(Pass.scroll, sampleView 5000), (Pass.resize, sampleView 5000),
          (Pass.load, sampleView 5000), (Pass.scroll, sampleView 0)]
        pageRevealed) 3 "aos-animate" = true :=
  ⟨by decide, aos_animate_stays_set _ _ _ _ (by decide)⟩

theorem scrollHandler_sameMarkup (dom : DOMRefs) (v : View) (doc : Document) :
    SameMarkup doc (scrollHandler dom v doc) := by
  unfold scrollHandler
  exact (((sameMarkup_handleNavbarScroll dom v doc).trans
    (sameMarkup_handleBackToTop dom v _)).trans
    (sameMarkup_handleScrollAnimations dom v _)).trans
    (sameMarkup_updateActiveNavLink dom v _)

theorem hasClass_scrollHandler_scrolled (dom : DOMRefs) (v : View) (doc : Document)
    {navbar : Nat} (hn : dom.navbar = some navbar) (hlt : navbar < doc.length) :
    hasClass (scrollHandler dom v doc) navbar "scrolled" = true ↔ v.scrollY > 50 := by
  unfold scrollHandler
  simp only
  rw [hasClass_updateActiveNavLink_of_ne _ _ _ (by decide),
    hasClass_handleScrollAnimations_of_ne _ _ _ (by decide),
    hasClass_handleBackToTop_of_ne _ _ _ (by decide)]
  exact hasClass_handleNavbarScroll dom v doc hn hlt

theorem hasClass_scrollHandler_visible (dom : DOMRefs) (v : View) (doc : Document)
    {backToTop : Nat} (hb : dom.backToTop = some backToTop) (hlt : backToTop < doc.length) :
    hasClass (scrollHandler dom v doc) backToTop "visible" = true ↔ v.scrollY > 300 := by
  unfold scrollHandler
  simp only
  rw [hasClass_updateActiveNavLink_of_ne _ _ _ (by decide),
    hasClass_handleScrollAnimations_of_ne _ _ _ (by decide)]
  apply hasClass_handleBackToTop dom v _ hb
  rw [(sameMarkup_handleNavbarScroll dom v doc).length_eq]
  exact hlt

theorem hasClass_scrollHandler_aos (dom : DOMRefs) (v : View) (doc : Document) {el : Nat}
    (hel : el ∈ dom.animatedElements) (hv : isInViewport v el = true) (hlt : el < doc.length) :
    hasClass (scrollHandler dom v doc) el "aos-animate" = true := by
  unfold scrollHandler
  simp only
  rw [hasClass_updateActiveNavLink_of_ne _ _ _ (by decide)]
  apply hasClass_handleScrollAnimations dom v _ hel hv
  rw [(sameMarkup_handleBackToTop dom v _).length_eq,
    (sameMarkup_handleNavbarScroll dom v doc).length_eq]
  exact hlt

theorem scrollHandler_idem (dom : DOMRefs) (v : View) (doc : Document)
    (h : LinksCover dom doc) :
    scrollHandler dom v (scrollHandler dom v doc) = scrollHandler dom v doc := by
  have hlen := (scrollHandler_sameMarkup dom v doc).length_eq
  have h1 : handleNavbarScroll dom v (scrollHandler dom v doc) = scrollHandler dom v doc :=
    handleNavbarScroll_fixed dom v _ (fun navbar hn hlt =>
      hasClass_scrollHandler_scrolled dom v doc hn (hlen ▸ hlt))
  have h2 : handleBackToTop dom v (scrollHandler dom v doc) = scrollHandler dom v doc :=
    handleBackToTop_fixed dom v _ (fun backToTop hb hlt =>
      hasClass_scrollHandler_visible dom v doc hb (hlen ▸ hlt))
  have h3 : handleScrollAnimations dom v (scrollHandler dom v doc) = scrollHandler dom v doc :=
    handleScrollAnimations_fixed dom v _ (fun el hel hv hlt =>
      hasClass_scrollHandler_aos dom v doc hel hv (hlen ▸ hlt))
  have h4 : updateActiveNavLink dom v (scrollHandler dom v doc) = scrollHandler dom v doc := by
    unfold scrollHandler
    simp only
    apply updateActiveNavLink_idem
    exact h.sameMarkup (((sameMarkup_handleNavbarScroll dom v doc).trans
      (sameMarkup_handleBackToTop dom v _)).trans (sameMarkup_handleScrollAnimations dom v _))
  have : scrollHandler dom v (scrollHandler dom v doc) =
      updateActiveNavLink dom v (handleScrollAnimations dom v (handleBackToTop dom v
        (handleNavbarScroll dom v (scrollHandler dom v doc)))) := rfl
  rw [this, h1, h2, h3, h4]

theorem lt_length_of_getElementById {doc : Document} {id : String} {el : Nat}
    (h : getElementById id doc = some el) : el < doc.length := by
  obtain ⟨⟨e, he, _⟩, _⟩ := querySelector_eq_some_iff.mp h
  by_contra hj
  rw [List.getElem?_eq_none (Nat.le_of_not_lt hj)] at he
  cases he

/-- Claim C5: for every scroll offset `s` and every prior class state, when the
navbar and the back-to-top control exist, after one scroll pass the navbar
carries `scrolled` exactly when `s > 50` and the back-to-top control carries
`visible` exactly when `s > 300` (strict comparisons, so at 50 and at 300 the
flags are unset); a second pass at the same scroll offset and layout leaves the
whole document as the first pass left it, and a second pass at the same scroll
offset under any layout leaves the two flags as they are. -/
theorem scrollHandler_scrolled_visible (doc : Document) (v : View) (navbar backToTop : Nat)
    (hn : (DOM doc).navbar = some navbar) (hb : (DOM doc).backToTop = some backToTop) :
    (hasClass (scrollHandler (DOM doc) v doc) navbar "scrolled" = true ↔ v.scrollY > 50) ∧
      (hasClass (scrollHandler (DOM doc) v doc) backToTop "visible" = true ↔
        v.scrollY > 300) ∧
      scrollHandler (DOM doc) v (scrollHandler (DOM doc) v doc) =
        scrollHandler (DOM doc) v doc ∧
      ∀ v2 : View, v2.scrollY = v.scrollY →
        hasClass (scrollHandler (DOM doc) v2 (scrollHandler (DOM doc) v doc)) navbar "scrolled"
            = hasClass (scrollHandler (DOM doc) v doc) navbar "scrolled" ∧
          hasClass (scrollHandler (DOM doc) v2 (scrollHandler (DOM doc) v doc)) backToTop
            "visible" = hasClass (scrollHandler (DOM doc) v doc) backToTop "visible" := by
  have hln := lt_length_of_getElementById hn
  have hlb := lt_length_of_getElementById hb
  have hlen := (scrollHandler_sameMarkup (DOM doc) v doc).length_eq
  refine ⟨hasClass_scrollHandler_scrolled _ v doc hn hln,
    hasClass_scrollHandler_visible _ v doc hb hlb,
    scrollHandler_idem _ v doc (linksCover_DOM doc), ?_⟩
  intro v2 hv
  constructor
  · rw [Bool.eq_iff_iff, hasClass_scrollHandler_scrolled _ v2 _ hn (hlen ▸ hln),
      hasClass_scrollHandler_scrolled _ v doc hn hln, hv]
  · rw [Bool.eq_iff_iff, hasClass_scrollHandler_visible _ v2 _ hb (hlen ▸ hlb),
      hasClass_scrollHandler_visible _ v doc hb hlb, hv]

/-- Instance of claim C5 at the boundary offsets: at `s = 50` the navbar is not
`scrolled`, at `s = 300` the back-to-top control is not `visible`, and at
`s = 301` both flags are set. -/
theorem scrollHandler_scrolled_visible_witness :
    hasClass (scrollHandler (DOM pageTwoActive) (sampleView 50) pageTwoActive) 0 "scrolled"
        = false ∧
      hasClass (scrollHandler (DOM pageTwoActive) (sampleView 300) pageTwoActive) 5 "visible"
        = false ∧
      hasClass (scrollHandler (DOM pageTwoActive) (sampleView 301) pageTwoActive) 0 "scrolled"
        = true ∧
      hasClass (scrollHandler (DOM pageTwoActive) (sampleView 301) pageTwoActive) 5 "visible"
        = true := by
  have h50 := scrollHandler_scrolled_visible pageTwoActive (sampleView 50) 0 5
    (by decide) (by decide)
  have h300 := scrollHandler_scrolled_visible pageTwoActive (sampleView 300) 0 5
    (by decide) (by decide)
  have h301 := scrollHandler_scrolled_visible pageTwoActive (sampleView 301) 0 5
    (by decide) (by decide)
  refine ⟨?_, ?_, ?_, ?_⟩
  · rw [Bool.eq_false_iff]
    exact fun hc => absurd (h50.1.mp hc) (by norm_num [sampleView])
  · rw [Bool.eq_false_iff]
    exact fun hc => absurd (h300.2.1.mp hc) (by norm_num [sampleView])
  · exact h301.1.mpr (by norm_num [sampleView])
  · exact h301.2.1.mpr (by norm_num [sampleView])

/-! ## Properties of `throttle` and `debounce` -/

theorem effectiveDelay_two_pow_31 : effectiveDelay 2147483648 = 0 := by
  norm_num [effectiveDelay, toLong]

theorem effectiveDelay_half : effectiveDelay (1 / 2) = 0 := by
  norm_num [effectiveDelay, toLong]

/-- Claim C7 as stated fails in three ways.  For a function that throws, the
exception leaves the throttled function before `inThrottle = true` is reached,
so two calls one millisecond apart, with a limit of 50 ms, both invoke the
function.  For the limit `2147483648`, which does not fit the 32-bit delay of
`setTimeout`, the timer is due at once, so three calls 100 ms apart invoke a
function that returns three times.  For the limit `1/2` the delay is truncated
to zero, and two calls a quarter of a millisecond apart both invoke the
function. -/
theorem throttle_throwing_func_invoked_twice :
    ((1 : ℚ) < 0 + 50 ∧
      (ThrottleState.run throwingFunc 50 [(0, 7), (1, 8)]
        (ThrottleState.fresh 0)).invocations = [(0, 7), (1, 8)] ∧
      ¬ (ThrottleState.run throwingFunc 50 [(0, 7), (1, 8)]
        (ThrottleState.fresh 0)).invocations = [(0, 7)]) ∧
    ((200 : ℚ) < 0 + 2147483648 ∧
      (ThrottleState.run countingFunc 2147483648 [(0, 7), (100, 8), (200, 9)]
        (ThrottleState.fresh 0)).invocations = [(0, 7), (100, 8), (200, 9)]) ∧
    ((1 / 4 : ℚ) < 0 + 1 / 2 ∧
      (ThrottleState.run countingFunc (1 / 2) [(0, 7), (1 / 4, 8)]
        (ThrottleState.fresh 0)).invocations = [(0, 7), (1 / 4, 8)]) := by
  refine ⟨⟨by norm_num, rfl, ?_⟩, ⟨by norm_num, ?_⟩, ⟨by norm_num, ?_⟩⟩
  · intro h
    have h2 : (ThrottleState.run throwingFunc 50 [(0, 7), (1, 8)]
        (ThrottleState.fresh 0)).invocations = [(0, 7), (1, 8)] := rfl
    rw [h2] at h
    exact absurd (congrArg List.length h) (by decide)
  · norm_num [ThrottleState.run, ThrottleState.advance, ThrottleState.runTimers, throttled,
      setTimeout, Timers.nextDue, Timers.remove, countingFunc, ThrottleState.fresh,
      Timers.empty, effectiveDelay_two_pow_31]
  · norm_num [ThrottleState.run, ThrottleState.advance, ThrottleState.runTimers, throttled,
      setTimeout, Timers.nextDue, Timers.remove, countingFunc, ThrottleState.fresh,
      Timers.empty, effectiveDelay_half]

/-- Claim C7, amended: for every function `func` whose first invocation returns
normally (does not throw), every limit that is a whole number of milliseconds
below `2^31` and every `n ≥ 1`: if the function returned by
`throttle(func, limit)`, in a fresh state, is called `n` times, all less than
`limit` milliseconds after the first call, then `func` is invoked exactly once,
at the first call and with the first call's arguments; the other `n - 1` calls
are dropped, and however much time passes afterwards they are never invoked. -/
theorem throttle_burst_invokes_once {α σ : Type} (func : α → σ → Outcome σ) (limit : ℕ)
    (world : σ) (first : ℚ × α) (rest : List (ℚ × α))
    (hlimit : limit < 2 ^ 31)
    (hburst : ∀ c ∈ rest, c.1 < first.1 + limit)
    (hret : ∃ w, func first.2 world = .returned w) :
    (ThrottleState.run func limit (first :: rest) (ThrottleState.fresh world)).invocations
        = [first] ∧
      ∀ now : ℚ,
        (ThrottleState.advance now
          (ThrottleState.run func limit (first :: rest)
            (ThrottleState.fresh world))).invocations = [first] := by
  obtain ⟨w, hw⟩ := hret
  have hb : ∀ c ∈ rest, c.1 < first.1 + effectiveDelay (limit : ℚ) := by
    rw [effectiveDelay_natCast limit hlimit]
    exact hburst
  have h := throttle_run_burst func limit world w first rest hb hw
  refine ⟨by rw [h], fun T => ?_⟩
  rw [throttle_advance_invocations, h]

/-- Instance of claim C7 (amended) with `n = 10`: ten calls within 9 ms, with
the limit of 10 ms that `handleScroll` uses, invoke the function once. -/
theorem throttle_burst_invokes_once_witness :
    (ThrottleState.run countingFunc (10 : ℕ) tenCalls (ThrottleState.fresh 0)).invocations
        = [(0, 0)] ∧
      ∀ now : ℚ,
        (ThrottleState.advance now
          (ThrottleState.run countingFunc (10 : ℕ) tenCalls
            (ThrottleState.fresh 0))).invocations = [(0, 0)] :=
  throttle_burst_invokes_once countingFunc 10 0 (0, 0)
    [(1, 1), (2, 2), (3, 3), (4, 4), (5, 5), (6, 6), (7, 7), (8, 8), (9, 9)]
    (by norm_num)
    (by
      intro c hc
      simp only [List.mem_cons, List.mem_singleton, List.not_mem_nil, or_false] at hc
      rcases hc with rfl | rfl | rfl | rfl | rfl | rfl | rfl | rfl | rfl <;> norm_num)
    ⟨1, rfl⟩

/-- Claim C8 as stated fails for a wait that `setTimeout` does not take as it
is.  With `wait = 2147483648`, which does not fit the 32-bit delay, the timer
of each call is due at once: in a burst of two calls 100 ms apart the function
has already been invoked when the second call comes, and it has been invoked
twice by time 200, long before `wait` milliseconds after the last call.  With
`wait = 1/2` the delay is truncated to zero and the same happens for two calls
a quarter of a millisecond apart. -/
theorem debounce_wait_not_kept :
    ((100 : ℚ) < 0 + 2147483648 ∧
      (DebounceState.run countingFunc 2147483648 [(0, 7), (100, 8)]
        (DebounceState.fresh 0)).invocations = [(0, 7)] ∧
      (DebounceState.advance countingFunc 200
        (DebounceState.run countingFunc 2147483648 [(0, 7), (100, 8)]
          (DebounceState.fresh 0))).invocations = [(0, 7), (100, 8)]) ∧
    ((1 / 4 : ℚ) < 0 + 1 / 2 ∧
      (DebounceState.run countingFunc (1 / 2) [(0, 7), (1 / 4, 8)]
        (DebounceState.fresh 0)).invocations = [(0, 7)]) := by
  refine ⟨⟨by norm_num, ?_, ?_⟩, ⟨by norm_num, ?_⟩⟩
  · norm_num [DebounceState.run, DebounceState.advance, DebounceState.runTimers, executedFunction,
      later, setTimeout, clearTimeout, Timers.nextDue, Timers.remove, countingFunc,
      DebounceState.fresh, Timers.empty, effectiveDelay_two_pow_31]
  · norm_num [DebounceState.run, DebounceState.advance, DebounceState.runTimers, executedFunction,
      later, setTimeout, clearTimeout, Timers.nextDue, Timers.remove, countingFunc,
      DebounceState.fresh, Timers.empty, effectiveDelay_two_pow_31]
  · norm_num [DebounceState.run, DebounceState.advance, DebounceState.runTimers, executedFunction,
      later, setTimeout, clearTimeout, Timers.nextDue, Timers.remove, countingFunc,
      DebounceState.fresh, Timers.empty, effectiveDelay_half]

/-- Claim C8, amended: for every function `func`, every `wait` that is a whole
number of milliseconds with `0 ≤ wait < 2^31`, and every burst of `n ≥ 1` calls
of the function returned by `debounce(func, wait)`, in a fresh state, in which
each call comes less than `wait` milliseconds after the previous one: during
the burst `func` is not invoked, and at its end exactly one timer is pending,
the one of the last call (every earlier timer has been cancelled by the next
call); until `wait` milliseconds after the last call `func` stays uninvoked;
from then on `func` has been invoked exactly once, at `wait` milliseconds after
the last call and with the last call's arguments, and no timer is left that
could invoke it again. -/
theorem debounce_burst_invokes_once {α σ : Type} (func : α → σ → Outcome σ) (wait : ℕ)
    (world : σ) (first : ℚ × α) (rest : List (ℚ × α)) (hwait : wait < 2 ^ 31)
    (hburst : List.Chain (fun (c d : ℚ × α) => d.1 < c.1 + wait) first rest) :
    let last := (first :: rest).getLast (List.cons_ne_nil _ _)
    let st := DebounceState.run func wait (first :: rest) (DebounceState.fresh world)
    st.invocations = [] ∧
      st.timers.pending.map (fun t => (t.due, t.callback)) = [(last.1 + wait, last.2)] ∧
      (∀ now, now < last.1 + wait → (DebounceState.advance func now st).invocations = []) ∧
      (∀ now, last.1 + wait ≤ now →
        (DebounceState.advance func now st).invocations = [(last.1 + wait, last.2)] ∧
          (DebounceState.advance func now st).timers.pending = []) := by
  intro last st
  have hw := effectiveDelay_natCast wait hwait
  have hfirst := debouncePending_first func wait hw world first
  have hrun : DebouncePending wait world last st :=
    debouncePending_run func wait hw world rest first _ hfirst hburst
  refine ⟨hrun.1, ?_, ?_, ?_⟩
  · obtain ⟨_, _, id, _, hpend⟩ := hrun
    rw [hpend]; rfl
  · intro now hnow
    rw [debouncePending_advance_before func wait world last st hrun now hnow]
    exact hrun.1
  · intro now hnow
    exact debouncePending_advance_after func wait world last st hrun now hnow

/-- Instance of claim C8 (amended): ten calls one millisecond apart, debounced
with the 100 ms that the `resize` listener uses, invoke the function once, at
time 109 and with the arguments of the tenth call; this holds even for a
function that throws. -/
theorem debounce_burst_invokes_once_witness :
    (DebounceState.run throwingFunc (100 : ℕ) tenCalls (DebounceState.fresh 0)).invocations
        = [] ∧
      (DebounceState.advance throwingFunc 108
        (DebounceState.run throwingFunc (100 : ℕ) tenCalls
          (DebounceState.fresh 0))).invocations = [] ∧
      (DebounceState.advance throwingFunc 109
        (DebounceState.run throwingFunc (100 : ℕ) tenCalls
          (DebounceState.fresh 0))).invocations = [(109, 9)] := by
  have h := debounce_burst_invokes_once throwingFunc 100 0 (0, 0)
    [(1, 1), (2, 2), (3, 3), (4, 4), (5, 5), (6, 6), (7, 7), (8, 8), (9, 9)] (by norm_num)
    (by simp only [List.chain_cons, List.Chain.nil, and_true]; norm_num)
  simp only [List.getLast_cons_cons, List.getLast_singleton] at h
  refine ⟨h.1, ?_, ?_⟩
  · exact h.2.2.1 108 (by norm_num)
  · have := (h.2.2.2 109 (by norm_num)).1
    norm_num at this
    exact this

/-! ## Properties of `isInViewport` -/

theorem isInViewport_eq_true_iff (v : View) (element : Nat) :
    isInViewport v element = true ↔
      (v.boundingRect element).top ≤ revealThreshold (windowHeight v) ∧
        (v.boundingRect element).bottom ≥ 0 := by
  simp only [isInViewport, revealThreshold, Bool.and_eq_true, decide_eq_true_eq]

/-- The threshold in a window 667 high: the double next above `566.95`. -/
theorem revealThreshold_667 : revealThreshold 667 = 2493472469470413 / 2 ^ 42 := by
  unfold revealThreshold
  rw [animationOffset_eq]
  have hoffset : toDouble (667 * (5404319552844595 / 2 ^ 55)) = 7040392854975283 / 2 ^ 46 := by
    have h := toDouble_eq (x := 667 * (5404319552844595 / 2 ^ 55)) 6 7040392854975283
      (by norm_num [abs_of_pos]) (by norm_num [abs_of_pos]) (by norm_num)
      (by norm_num [abs_lt])
    rw [h]
    norm_num
  rw [hoffset]
  have h := toDouble_eq (x := 667 - 7040392854975283 / 2 ^ 46) 9 4986944938940826
    (by norm_num [abs_of_pos]) (by norm_num [abs_of_pos]) (by norm_num)
    (by norm_num [abs_lt])
  rw [h]
  norm_num

/-- Claim C6 as stated fails on doubles: in a window 667 high the script
computes `667 * 0.15` and `667 - 100.05` in doubles and gets the double next
above `566.95`; a box whose top is that double and whose bottom is 10 is
reported as in the viewport, although its top exceeds `667 * (1 - 15/100)`. -/
theorem isInViewport_true_above_exact_threshold :
    isInViewport (boxView 667 (2493472469470413 / 2 ^ 42) 10) 0 = true ∧
      ¬ ((2493472469470413 / 2 ^ 42 : ℚ) ≤ 667 * (1 - 15 / 100) ∧ (10 : ℚ) ≥ 0) := by
  constructor
  · rw [isInViewport_eq_true_iff]
    have hH : windowHeight (boxView 667 (2493472469470413 / 2 ^ 42) 10) = 667 := by
      norm_num [boxView, windowHeight, orElse]
    rw [hH, revealThreshold_667]
    norm_num [boxView]
  · norm_num

/-- Claim C6, amended: with `H` the viewport height read by the function
(`window.innerHeight`, or the client height of the document element when that is
zero), which is zero or at least 1, `isInViewport` returns `true` exactly when
`top` is at most the threshold that the script computes in doubles as
`H - H * 0.15`, and `bottom ≥ 0`.  That threshold differs from `H * (1 - 15/100)` by at most
`H / 2 ^ 52`: a box with `bottom ≥ 0` and `top ≤ H * (1 - 15/100) - H / 2 ^ 52`
is reported, and a box whose top exceeds `H * (1 - 15/100) + H / 2 ^ 52`, in
particular one whose top lies between that bound and `H`, is not.  Two calls
that agree on `top`, `bottom` and `H` return the same result. -/
theorem isInViewport_iff (v : View) (element : Nat)
    (hH : windowHeight v = 0 ∨ 1 ≤ windowHeight v) :
    (isInViewport v element = true ↔
        (v.boundingRect element).top ≤ revealThreshold (windowHeight v) ∧
          (v.boundingRect element).bottom ≥ 0) ∧
      |revealThreshold (windowHeight v) - windowHeight v * (1 - 15 / 100)| ≤
        windowHeight v / 2 ^ 52 ∧
      ((v.boundingRect element).top ≤
            windowHeight v * (1 - 15 / 100) - windowHeight v / 2 ^ 52 ∧
          (v.boundingRect element).bottom ≥ 0 →
        isInViewport v element = true) ∧
      (windowHeight v * (1 - 15 / 100) + windowHeight v / 2 ^ 52 <
          (v.boundingRect element).top →
        isInViewport v element = false) ∧
      (∀ (v' : View) (element' : Nat),
        (v'.boundingRect element').top = (v.boundingRect element).top →
        (v'.boundingRect element').bottom = (v.boundingRect element).bottom →
        windowHeight v' = windowHeight v →
        isInViewport v' element' = isInViewport v element) := by
  have hbound := abs_revealThreshold_sub_le_of_whole hH
  have hb := abs_le.mp hbound
  refine ⟨isInViewport_eq_true_iff v element, hbound, ?_, ?_, ?_⟩
  · rintro ⟨h, hbot⟩
    rw [isInViewport_eq_true_iff]
    exact ⟨by linarith [hb.1], hbot⟩
  · intro h
    rw [Bool.eq_false_iff, Ne, isInViewport_eq_true_iff]
    exact fun hc => absurd hc.1 (not_le.mpr (by linarith [hb.2]))
  · intro v' element' ht hbt hh
    rw [Bool.eq_iff_iff, isInViewport_eq_true_iff, isInViewport_eq_true_iff, ht, hbt, hh]

/-- Instance of claim C6 (amended) in a window 800 high, where
`H * (1 - 15/100)` is 680: a box with top 679 is in the viewport and a box with
top 700 is not, although 700 is less than the window height. -/
theorem isInViewport_iff_witness :
    (1 : ℚ) ≤ windowHeight (boxView 800 679 900) ∧
      isInViewport (boxView 800 679 900) 0 = true ∧
      isInViewport (boxView 800 700 900) 0 = false :=
  ⟨by norm_num [boxView, windowHeight, orElse],
    (isInViewport_iff (boxView 800 679 900) 0
      (Or.inr (by norm_num [boxView, windowHeight, orElse]))).2.2.1
      (by norm_num [boxView, windowHeight, orElse]),
    (isInViewport_iff (boxView 800 700 900) 0
      (Or.inr (by norm_num [boxView, windowHeight, orElse]))).2.2.2.1
      (by norm_num [boxView, windowHeight, orElse])⟩

/-! ## Properties of the e-mail pattern and of `validateForm` -/

/-- Claim C9: the e-mail pattern accepts a string exactly when it is
`a + "@" + b + "." + c` for non-empty `a`, `b`, `c` containing neither white
space nor `@`.  It accepts `user@example.com` and rejects `user@example`, the
empty string and `user.example.com`; it rejects every string without `@`, every
string with two or more `@`, and every string containing white space. -/
theorem emailRegex_accepts_iff :
    (∀ e : String, emailRegex.test e = true ↔
        ∃ a b c : String, e = a ++ "@" ++ b ++ "." ++ c ∧
          IsEmailPart a ∧ IsEmailPart b ∧ IsEmailPart c) ∧
      emailRegex.test "user@example.com" = true ∧
      emailRegex.test "user@example" = false ∧
      emailRegex.test "" = false ∧
      emailRegex.test "user.example.com" = false ∧
      (∀ e : String, '@' ∉ e.data → emailRegex.test e = false) ∧
      (∀ e : String, 2 ≤ e.data.count '@' → emailRegex.test e = false) ∧
      (∀ e : String, (∃ ch ∈ e.data, isWhiteSpace ch = true) → emailRegex.test e = false) := by
  refine ⟨emailRegex_test_iff, by decide, by decide, by decide, by decide,
    emailRegex_rejects_without_at, ?_, emailRegex_rejects_white_space⟩
  intro e h2
  rw [Bool.eq_false_iff]
  intro ht
  rw [emailRegex_count_at ht] at h2
  exact absurd h2 (by decide)

/-- Instance of claim C9: `ani@mail.com` splits as `ani`, `mail`, `com` and is
accepted; `a@b@c.d` has two `@` and is rejected. -/
theorem emailRegex_accepts_iff_witness :
    emailRegex.test "ani@mail.com" = true ∧ emailRegex.test "a@b@c.d" = false :=
  ⟨(emailRegex_accepts_iff.1 "ani@mail.com").mpr
      ⟨"ani", "mail", "com", by decide, by unfold IsEmailPart; decide,
        by unfold IsEmailPart; decide, by unfold IsEmailPart; decide⟩,
    emailRegex_accepts_iff.2.2.2.2.2.2.1 "a@b@c.d" (by decide)⟩

/-- Claim C10: `validateForm` returns `true` exactly when the name is non-empty
after trimming, the message is non-empty after trimming, and the e-mail matches
the e-mail pattern (the test of `email.trim()` adds nothing: a matching e-mail
is never empty after trimming); the subject never affects the result. -/
theorem validateForm_iff (data : FormData) :
    (validateForm data = true ↔
        trim data.name ≠ "" ∧ trim data.message ≠ "" ∧
          emailRegex.test data.email = true) ∧
      (emailRegex.test data.email = true → trim data.email ≠ "") ∧
      (∀ subject : String, validateForm { data with subject := subject } = validateForm data) := by
  refine ⟨validateForm_eq_true_iff data, trim_ne_empty_of_test, ?_⟩
  intro subject
  rfl

/-- Instance of claim C10: the record with name `Ani`, e-mail `ani@mail.com`
and message `Hello` passes; the same record with an empty message fails. -/
theorem validateForm_iff_witness :
    validateForm { name := "Ani", email := "ani@mail.com", subject := "", message := "Hello" }
        = true ∧
      validateForm { name := "Ani", email := "ani@mail.com", subject := "", message := "" }
        = false :=
  ⟨(validateForm_iff _).1.mpr ⟨by decide, by decide, by decide⟩,
    by
      rw [Bool.eq_false_iff]
      exact fun h => absurd ((validateForm_iff _).1.mp h).2.1 (by decide)⟩

/-! ## Properties of the contact form and of missing elements -/

/-- Claim C11: for every submission of the contact form whose field values fail
`validateForm`, the submit handler returns at once with a new notification of
class `notification notification-error` in the page (it replaces the first
notification shown before, if any); the only timer it sets is the one that
removes this notification after 5000 ms, so no 1500 ms submission timer is
pending that was not pending before; the controls keep their values (the form
is not reset, the form data read again is the same) and the submit button keeps
its label and its enabled state. -/
theorem submitHandler_invalid (now : ℚ) (st : PageState)
    (h : validateForm (readFormData st) = false) :
    ∃ (s1 : PageState) (n : Notification),
      submitHandler now st = .returned s1 ∧
      s1.notifications = st.notifications.drop 1 ++ [n] ∧
      n.className = "notification notification-error" ∧
      s1.timers.pending = st.timers.pending ++
        [{ id := st.timers.nextId, due := now + 5000,
           callback := PageCallback.autoRemove n.key }] ∧
      (∀ t ∈ s1.timers.pending, ∀ originalText,
        t.callback = PageCallback.submitted originalText → t ∈ st.timers.pending) ∧
      s1.controls = st.controls ∧
      readFormData s1 = readFormData st ∧
      s1.submitBtn = st.submitBtn := by
  obtain ⟨n, hn, hclass, _, hkey⟩ := showNotification_notifications
    "Mohon lengkapi semua field yang wajib diisi." "error" now st
  have hpend := showNotification_pending
    "Mohon lengkapi semua field yang wajib diisi." "error" now st
  refine ⟨_, n, submitHandler_of_invalid now st h, hn, by rw [hclass, className_error],
    by rw [hpend, hkey], ?_, rfl, rfl, rfl⟩
  intro t ht originalText hcb
  rw [hpend, List.mem_append, List.mem_singleton] at ht
  rcases ht with ht | rfl
  · exact ht
  · cases hcb

/-- Instance of claim C11: the sample page submitted with an empty message. -/
theorem submitHandler_invalid_witness :
    validateForm (readFormData (contactPage "" (some sendButton) none)) = false ∧
      ∃ (s1 : PageState) (n : Notification),
        submitHandler 0 (contactPage "" (some sendButton) none) = .returned s1 ∧
        s1.notifications = [n] ∧
        n.className = "notification notification-error" ∧
        readFormData s1 =
          { name := "Ani", email := "ani@mail.com", subject := "", message := "" } ∧
        s1.submitBtn = some sendButton := by
  have hv : validateForm (readFormData (contactPage "" (some sendButton) none)) = false := by
    decide
  obtain ⟨s1, n, hs, hn, hc, _, _, _, hd, hb⟩ :=
    submitHandler_invalid 0 (contactPage "" (some sendButton) none) hv
  exact ⟨hv, s1, n, hs, hn, hc, by rw [hd]; decide, hb⟩

/-- Claim C12: for every submission of the contact form whose field values pass
`validateForm`, with a submit button present: the handler returns with the
button disabled and showing the loading label, the notifications and the
controls as they were (so no success notification has been produced before the
delay) and one new timer, due 1500 ms later; the timers that remove
notifications leave the button as it is.  When that timer fires, the form is
reset (every control of the form has its initial value again, so every control
is empty when the markup gives no initial values), the button has the label it
had at the submission and is enabled, and a notification of class
`notification notification-success` has been produced. -/
theorem submitHandler_valid (now : ℚ) (st : PageState) (submitBtn : Button)
    (hvalid : validateForm (readFormData st) = true)
    (hbtn : st.submitBtn = some submitBtn) :
    ∃ s1 : PageState,
      submitHandler now st = .returned s1 ∧
      s1.notifications = st.notifications ∧
      s1.controls = st.controls ∧
      s1.submitBtn = some { innerHTML := loadingLabel, disabled := true } ∧
      s1.timers.pending = st.timers.pending ++
        [submissionTimer st now submitBtn.innerHTML] ∧
      (∀ key t,
        (runCallback (PageCallback.autoRemove key) t s1).submitBtn = s1.submitBtn ∧
        (runCallback (PageCallback.removeNotification key) t s1).submitBtn = s1.submitBtn) ∧
      (fireTimer (submissionTimer st now submitBtn.innerHTML) s1).controls
        = (formReset st).controls ∧
      (∀ c ∈ (fireTimer (submissionTimer st now submitBtn.innerHTML) s1).controls,
        c.inForm = true → c.value = c.defaultValue) ∧
      ((∀ c ∈ st.controls, c.inForm = true → c.defaultValue = "") →
        ∀ c ∈ (fireTimer (submissionTimer st now submitBtn.innerHTML) s1).controls,
        c.inForm = true → c.value = "") ∧
      (fireTimer (submissionTimer st now submitBtn.innerHTML) s1).submitBtn
        = some { innerHTML := submitBtn.innerHTML, disabled := false } ∧
      ∃ n : Notification,
        (fireTimer (submissionTimer st now submitBtn.innerHTML) s1).notifications
          = st.notifications.drop 1 ++ [n] ∧
        n.className = "notification notification-success" := by
  refine ⟨_, submitHandler_of_valid now st submitBtn hvalid hbtn, rfl, rfl, rfl, rfl, ?_, ?_, ?_,
    ?_, ?_, ?_⟩
  · intro key t
    constructor
    · simp only [runCallback]
      split <;> rfl
    · rfl
  · rfl
  · intro c hc hin
    have hc' : c ∈ (formReset st).controls := hc
    exact formReset_value st c hc' hin
  · intro hdef c hc hin
    have hc' : c ∈ (formReset st).controls := hc
    have hval := formReset_value st c hc' hin
    obtain ⟨c0, hc0, h1, h2, _⟩ := formReset_defaultValue st c hc'
    rw [hval, h2]
    exact hdef c0 hc0 (h1 ▸ hin)
  · exact fireTimer_submitted_submitBtn _ _ _ _ _ rfl
  · exact fireTimer_submitted_notifications _ _ _ _

/-- Instance of claim C12: the sample page with name `Ani`, e-mail
`ani@mail.com` and message `Hello`, submitted at time 0. -/
theorem submitHandler_valid_witness :
    validateForm (readFormData (contactPage "Hello" (some sendButton) none)) = true ∧
      ∃ s1 : PageState,
        submitHandler 0 (contactPage "Hello" (some sendButton) none) = .returned s1 ∧
        s1.notifications = [] ∧
        s1.submitBtn = some { innerHTML := loadingLabel, disabled := true } ∧
        readFormData
            (fireTimer (submissionTimer (contactPage "Hello" (some sendButton) none) 0
              sendButton.innerHTML) s1)
          = { name := "", email := "", subject := "", message := "" } ∧
        (fireTimer (submissionTimer (contactPage "Hello" (some sendButton) none) 0
            sendButton.innerHTML) s1).submitBtn = some sendButton ∧
        ∃ n : Notification,
          (fireTimer (submissionTimer (contactPage "Hello" (some sendButton) none) 0
              sendButton.innerHTML) s1).notifications = [n] ∧
          n.className = "notification notification-success" := by
  have hv : validateForm (readFormData (contactPage "Hello" (some sendButton) none)) = true := by
    decide
  obtain ⟨s1, hs, hn, _, hb, _, _, hreset, _, _, hbtn, hnote⟩ :=
    submitHandler_valid 0 (contactPage "Hello" (some sendButton) none) sendButton hv rfl
  refine ⟨hv, s1, hs, hn, hb, ?_, hbtn, hnote⟩
  rw [readFormData_congr hreset]
  decide

theorem handleNavbarScroll_of_absent (dom : DOMRefs) (v : View) (doc : Document)
    (h : dom.navbar = none) : handleNavbarScroll dom v doc = doc := by
  simp [handleNavbarScroll, h]

theorem handleBackToTop_of_absent (dom : DOMRefs) (v : View) (doc : Document)
    (h : dom.backToTop = none) : handleBackToTop dom v doc = doc := by
  simp [handleBackToTop, h]

/-- Claim C13, part by part.  The parts that hold: with the navbar absent
`handleNavbarScroll` changes nothing, with the back-to-top control absent
`handleBackToTop` changes nothing, the rest of the scroll pass still runs and
`updateActiveNavLink` works with navbar height 0; the newsletter handler always
returns, and with no e-mail input it returns after showing the error
notification.  The part that fails: on valid data with no
`button[type="submit"]` inside the form the submit handler of the contact form
does not complete, it raises (reading `innerHTML` of `null`), for every page
and in particular for the sample page with name `Ani`, e-mail `ani@mail.com`
and message `Hello`. -/
theorem missing_element_handling :
    (∀ dom v doc, dom.navbar = none → handleNavbarScroll dom v doc = doc) ∧
      (∀ dom v doc, dom.backToTop = none → handleBackToTop dom v doc = doc) ∧
      (∀ dom v doc, dom.navbar = none →
        scrollHandler dom v doc =
          updateActiveNavLink dom v
            (handleScrollAnimations dom v (handleBackToTop dom v doc))) ∧
      (∀ dom v doc, dom.backToTop = none →
        scrollHandler dom v doc =
          updateActiveNavLink dom v
            (handleScrollAnimations dom v (handleNavbarScroll dom v doc))) ∧
      (∀ dom v, dom.navbar = none → navbarHeight dom v = 0) ∧
      (∀ now st, ∃ s, newsletterHandler now st = .returned s) ∧
      (∀ now st, st.newsletterEmail = none →
        newsletterHandler now st =
          .returned (showNotification "Mohon masukkan alamat email Anda." "error" now st)) ∧
      (∀ now st, validateForm (readFormData st) = true → st.submitBtn = none →
        submitHandler now st = .threw st) ∧
      validateForm (readFormData (contactPage "Hello" none none)) = true ∧
      submitHandler 0 (contactPage "Hello" none none) =
        .threw (contactPage "Hello" none none) := by
  refine ⟨handleNavbarScroll_of_absent, handleBackToTop_of_absent, ?_, ?_, ?_,
    newsletterHandler_returns, newsletterHandler_of_no_input, submitHandler_of_no_button,
    by decide, submitHandler_of_no_button _ _ (by decide) rfl⟩
  · intro dom v doc h
    simp only [scrollHandler, handleNavbarScroll_of_absent dom v doc h]
  · intro dom v doc h
    simp only [scrollHandler, handleBackToTop_of_absent dom v _ h]
  · intro dom v h
    simp [navbarHeight, h]

end BatikStore
